import Mathlib

set_option autoImplicit false

namespace AgentFlow

/-! # Shallow embedding of the AgentFlow adapter / pipeline core

Python values flowing through the program are modelled by `Json` below;
`json.loads` is modelled as an oracle of type `String → Option Json`
(`none` = `json.JSONDecodeError`), supplied as an explicit parameter wherever
the source calls it.  Concrete theorems instantiate the oracle with finite
tables whose entries record what `json.loads` returns on the strings involved.
Uncaught Python exceptions (`AttributeError`, `KeyError`, foreign error
classes) are modelled with explicit error channels (`Except`), never by
silently totalising the code. -/

/-- Python/JSON values as produced by `json.loads`.  `null` doubles as Python
`None` (they are the same object in the source).  `int` and `float` are kept
apart because `json.loads` distinguishes them and `str()` renders them
differently. -/
inductive Json where
  | null
  | bool (b : Bool)
  | int (n : Int)
  | float (q : Rat)
  | str (s : String)
  | arr (xs : List Json)
  | obj (kvs : List (String × Json))

/-- Left brace character (written via its code point to keep string literals
free of brace syntax). -/
def lbrace : Char := Char.ofNat 123

/-- Right brace character. -/
def rbrace : Char := Char.ofNat 125

/-- Backtick character. -/
def btick : Char := Char.ofNat 96

/-- Is this `Json` value a Python dict? -/
def Json.isObj : Json → Bool
  | .obj _ => true
  | _ => false

/-- Python truthiness of a value (`if x:`): `None`, `False`, `0`, `0.0`,
empty string, empty list and empty dict are falsy. -/
def pyTruthy : Json → Bool
  | .null => false
  | .bool b => b
  | .int n => n ≠ 0
  | .float q => q ≠ 0
  | .str s => s ≠ ""
  | .arr xs => ¬xs.isEmpty
  | .obj kvs => ¬kvs.isEmpty

/-- Raw lookup in a dict: `none` when the key is missing.  Python dicts have
unique keys, and `json.loads` keeps the last duplicate, so lookup returns the
last binding. -/
def objGet (j : Json) (k : String) : Option Json :=
  match j with
  | .obj kvs => (kvs.reverse.find? (fun p => p.1 == k)).map (·.2)
  | _ => none

/-- `d.get(k)`: Python returns `None` when the key is missing (callers cannot
tell a missing key from a stored `null`, which is the same `None` object). -/
def getAttr (j : Json) (k : String) : Json :=
  (objGet j k).getD .null

/-- `d.get(k, default)`: the stored value (even `null`) when present, else the
default. -/
def getAttrD (j : Json) (k : String) (d : Json) : Json :=
  (objGet j k).getD d

/-- Python `==` between a value and a string literal (the only shape of
equality test the embedded source performs on loaded values). -/
def jEqStr (j : Json) (s : String) : Bool :=
  match j with
  | .str t => t == s
  | _ => false

/-- Python dict assignment `m[k] = v` on an assoc list: replaces the value in
place if the key exists (keeping insertion order), else appends. -/
def dset (m : List (String × Json)) (k : String) (v : Json) : List (String × Json) :=
  if m.any (fun p => p.1 == k) then
    m.map (fun p => if p.1 == k then (k, v) else p)
  else
    m ++ [(k, v)]

/-- Python `m.setdefault(k, v)`. -/
def dsetdefault (m : List (String × Json)) (k : String) (v : Json) :
    List (String × Json) :=
  if m.any (fun p => p.1 == k) then m else m ++ [(k, v)]

/-- Lookup in an assoc-list dict, `none` when missing. -/
def dget (m : List (String × Json)) (k : String) : Option Json :=
  (m.find? (fun p => p.1 == k)).map (·.2)

/-- `m.get(k)` on an assoc-list dict, with Python's missing-key-is-`None`. -/
def dgetAttr (m : List (String × Json)) (k : String) : Json :=
  (dget m k).getD .null

/-- Characters treated as whitespace by Python's `str.strip()` / `\s`
(ASCII fragment; the source never meets non-ASCII whitespace). -/
def pyWs (c : Char) : Bool :=
  c = ' ' || c = '\t' || c = '\n' || c = '\r' || c = Char.ofNat 11 || c = Char.ofNat 12

/-- Python `str.strip()`. -/
def pyStrip (s : String) : String :=
  ⟨((s.data.dropWhile pyWs).reverse.dropWhile pyWs).reverse⟩

/-- Python `str.strip(chars)` for a single character (used for `strip("`")`). -/
def pyStripChar (c : Char) (s : String) : String :=
  ⟨((s.data.dropWhile (· = c)).reverse.dropWhile (· = c)).reverse⟩

/-- Python `str.lstrip("-*")`: drop leading `-` and `*` characters. -/
def pyLstripBullet (s : String) : String :=
  ⟨s.data.dropWhile (fun c => c = '-' || c = '*')⟩

/-- `s.startswith(pre)` (structural; `String.startsWith` does not reduce in
the kernel). -/
def pyStarts (pre s : String) : Bool :=
  pre.data.isPrefixOf s.data

/-- `s.lower()` (ASCII, which is all the compared text contains). -/
def pyLower (s : String) : String :=
  ⟨s.data.map Char.toLower⟩

/-- `s.splitlines()` for `\n`-separated text (the only separator the repo's
strings use), modulo the final empty piece Python drops for a trailing
newline — every consumer skips blank lines, so the difference is inert. -/
def splitNlAux : List Char → List Char → List String
  | [], acc => [⟨acc.reverse⟩]
  | c :: cs, acc =>
    if c = '\n' then ⟨acc.reverse⟩ :: splitNlAux cs []
    else splitNlAux cs (c :: acc)

/-- Split a string at newlines. -/
def splitNl (s : String) : List String :=
  splitNlAux s.data []

/-- Decimal rendering of a `Rat` for Python `repr(float)`; exact for the
decimal literals `json.loads` produces (best effort elsewhere — no claim
depends on rendering a float). -/
def floatRepr (q : Rat) : String :=
  if q.den = 1 then toString q.num ++ ".0"
  else
    let sign := if q < 0 then "-" else ""
    let q' := |q|
    let ip := q'.floor
    let rec frac (r : Rat) (fuel : Nat) : String :=
      match fuel with
      | 0 => ""
      | fuel + 1 =>
        if r = 0 then ""
        else
          let r10 := r * 10
          let d := r10.floor
          toString d ++ frac (r10 - (d : Rat)) fuel
    sign ++ toString ip ++ "." ++ frac (q' - (ip : Rat)) 30

/-- Python `repr()` of a loaded value (`str()` of lists/dicts delegates to
element `repr`).  String quoting uses single quotes as CPython does. -/
def pyRepr : Json → String
  | .null => "None"
  | .bool b => if b then "True" else "False"
  | .int n => toString n
  | .float q => floatRepr q
  | .str s => "'" ++ s ++ "'"
  | .arr xs => "[" ++ String.intercalate (", ") (xs.attach.map (fun x => pyRepr x.1)) ++ "]"
  | .obj kvs =>
    String.mk [lbrace] ++
      String.intercalate (", ")
        (kvs.attach.map (fun p => "'" ++ p.1.1 ++ "': " ++ pyRepr p.1.2)) ++
      String.mk [rbrace]
decreasing_by
  · have := List.sizeOf_lt_of_mem x.2
    simp only [Json.arr.sizeOf_spec]
    omega
  · have h1 := List.sizeOf_lt_of_mem p.2
    have h2 : sizeOf p.1.2 < sizeOf p.1 := by
      obtain ⟨⟨a, b⟩, hm⟩ := p
      simp only [Prod.mk.sizeOf_spec]
      omega
    simp only [Json.obj.sizeOf_spec]
    omega

/-- Python `str()` of a loaded value. -/
def pyStr (j : Json) : String :=
  match j with
  | .str s => s
  | _ => pyRepr j

/-- A finite table standing in for `json.loads`: maps input strings to parse
results.  Each concrete table entry in this file records the actual behaviour
of `json.loads` on that string. -/
def tableParse (table : List (String × Json)) : String → Option Json :=
  fun s => (table.find? (fun p => p.1 == s)).map (·.2)

/-! ## Fenced-block matcher

`flow_spec.py` locates the candidate JSON text with
`re.compile(r"...json(?:\s+flow_spec)?\s*(\x7b[\s\S]*?\x7d)\s*...", re.IGNORECASE).search`
(the elided runs are three backticks).  The functions below implement exactly
that pattern's semantics: leftmost match, the optional `flow_spec` annotation
tried first, `\s*` collapsing all whitespace before the opening brace, and the
lazy group ending at the first closing brace that is followed by optional
whitespace and three backticks. -/

/-- Case-insensitive literal match; returns the remaining input on success. -/
def matchLitCI : List Char → List Char → Option (List Char)
  | [], s => some s
  | _ :: _, [] => none
  | l :: ls, c :: cs => if l.toLower = c.toLower then matchLitCI ls cs else none

/-- Does `s` start with the literal prefix `pre` (case-sensitive)? -/
def startsWithChars : List Char → List Char → Bool
  | [], _ => true
  | _ :: _, [] => false
  | p :: ps, c :: cs => p = c && startsWithChars ps cs

/-- Three backticks, the closing fence of the pattern. -/
def fence3 : List Char := [btick, btick, btick]

/-- The opening fence plus tag, matched case-insensitively. -/
def fenceJson : List Char := btick :: btick :: btick :: ("json".data)

/-- Scan for the lazy group's end: the first `\x7d` whose suffix matches
`\s*` and three backticks.  Returns the whole group (braces included). -/
def findClose (acc : List Char) : List Char → Option (List Char)
  | [] => none
  | c :: cs =>
    if c = rbrace && startsWithChars fence3 (cs.dropWhile pyWs) then
      some ((lbrace :: acc.reverse) ++ [rbrace])
    else
      findClose (c :: acc) cs

/-- After the (resolved) optional annotation: `\s*`, an opening brace, then
the lazy group. -/
def tryBody (rest : List Char) : Option (List Char) :=
  match rest.dropWhile pyWs with
  | c :: cs => if c = lbrace then findClose [] cs else none
  | [] => none

/-- Attempt the whole pattern anchored at the start of `s`.  The
`(?:\s+flow_spec)?` alternative with the annotation present is tried first,
mirroring the regex engine's backtracking order. -/
def tryAt (s : List Char) : Option (List Char) :=
  match matchLitCI fenceJson s with
  | none => none
  | some rest =>
    let withAnnot : Option (List Char) :=
      match rest with
      | c :: _ =>
        if pyWs c then
          match matchLitCI ("flow_spec".data) (rest.dropWhile pyWs) with
          | some r2 => tryBody r2
          | none => none
        else none
      | [] => none
    match withAnnot with
    | some cand => some cand
    | none => tryBody rest

/-- `re.search`: try the pattern at each position, leftmost first. -/
def fenceSearch : List Char → Option (List Char)
  | [] => none
  | c :: rest =>
    match tryAt (c :: rest) with
    | some cand => some cand
    | none => fenceSearch rest

/-! ## `flow_spec.py` -/

/-- The payload dict returned by `extract_flow_spec_from_message` (fixed
shape: keys `flow_spec`, `raw_json` and optionally `agentflowlanguage`). -/
structure FlowPayload where
  flow_spec : Json
  raw_json : String
  agentflowlanguage : Option String

/-- The `afl_text` computed from the loaded value (flow_spec.py:49-55):
the stripped `agentflowlanguage` entry when the value is a dict holding a
string there. -/
def aflTextOf (loaded : Json) : Option String :=
  match (if loaded.isObj then getAttr loaded "agentflowlanguage" else Json.null) with
  | .str s => some (pyStrip s)
  | _ => none

/-- The value the extractor treats as the flow spec (flow_spec.py:50-58):
the `flow_spec` entry when the loaded value is a dict and that entry is not
`None`/missing, else the loaded value itself. -/
def flowDataOf (loaded : Json) : Json :=
  match (if loaded.isObj then getAttr loaded "flow_spec" else Json.null) with
  | .null => loaded
  | v => v

/-- `isinstance(nodes, list) and nodes` for `flow_data.get("nodes")`
(flow_spec.py:63-65). -/
def nodesOkOf (flowData : Json) : Bool :=
  match getAttr flowData "nodes" with
  | .arr ns => ¬ns.isEmpty
  | _ => false

/-- The `agentflowlanguage` entry of the returned payload: the stripped text
when non-empty (`if afl_text:`), else absent (flow_spec.py:68-69). -/
def aflPayloadOf (loaded : Json) : Option String :=
  match aflTextOf loaded with
  | some a => if a ≠ "" then some a else none
  | none => none

/-- `extract_flow_spec_from_message` (flow_spec.py:33-70), with `json.loads`
supplied as the `parse` oracle.  Returns `none` wherever the source returns
`None`; the function never raises in the source and is total here. -/
def extractFlowSpecFromMessage (parse : String → Option Json) (message : String) :
    Option FlowPayload :=
  if message = "" then none
  else
    match fenceSearch message.data with
    | none => none
    | some grp =>
      let candidate := pyStrip (String.mk grp)
      match parse candidate with
      | none => none
      | some loaded =>
        if ¬(flowDataOf loaded).isObj then none
        else if ¬nodesOkOf (flowDataOf loaded) then none
        else some { flow_spec := flowDataOf loaded
                    raw_json := candidate
                    agentflowlanguage := aflPayloadOf loaded }

/-- Python `a or b` on values: `a` when truthy, else `b`. -/
def pyOr (a b : Json) : Json := if pyTruthy a then a else b

/-- `str(entry.get("id") or entry.get("name") or "").strip()`
(flow_spec.py:138). -/
def rawIdOf (entry : Json) : String :=
  pyStrip (pyStr (pyOr (getAttr entry "id") (pyOr (getAttr entry "name") (Json.str ""))))

/-- `flow_spec.get("edges", [])`, with the surrounding `isinstance(..., list)`
guard: a non-list yields no edge iteration. -/
def edgeList (fs : Json) : List Json :=
  match getAttrD fs "edges" (Json.arr []) with
  | .arr es => es
  | _ => []

/-- One iteration of the dependency-map loop (flow_spec.py:121-128): skip
non-dict edges, stringify-and-strip `source`/`from` and `target`/`to`, skip
edges missing either end. -/
def validEdge (e : Json) : Option (String × String) :=
  if ¬e.isObj then none
  else
    let s := pyStrip (pyStr (pyOr (getAttr e "source") (pyOr (getAttr e "from") (Json.str ""))))
    let t := pyStrip (pyStr (pyOr (getAttr e "target") (pyOr (getAttr e "to") (Json.str ""))))
    if s = "" || t = "" then none else some (s, t)

/-- `dependency_map[target]`: the sources of valid edges into `target`, in
edge order (`defaultdict(list)` appends). -/
def depSources (fs : Json) (target : String) : List String :=
  ((edgeList fs).filterMap validEdge).filterMap
    (fun p => if p.2 = target then some p.1 else none)

/-- `list(dict.fromkeys(l))`: de-duplicate keeping first occurrences,
accumulating the keys already seen. -/
def firstDedupAux : List String → List String → List String
  | [], _ => []
  | x :: xs, seen =>
    if x ∈ seen then firstDedupAux xs seen
    else x :: firstDedupAux xs (x :: seen)

/-- `list(dict.fromkeys(l))`. -/
def firstDedup (l : List String) : List String :=
  firstDedupAux l []

/-- The `depends_on` list of a synthetic node (flow_spec.py:146-153). -/
def synDeps (fs : Json) (rawId : String) : List String :=
  let dep := (depSources fs rawId).filterMap
    (fun s => if s ≠ "" then some ("flow::" ++ s) else none)
  firstDedup (if dep.isEmpty then ["codex_execution"] else "codex_execution" :: dep)

/-- A plan node (primary or synthetic); the `error` key is present only when
`build_plan_document` attaches an error payload. -/
structure PNode where
  id : String
  type : String
  summary : String
  depends_on : List String
  status : String
  attempt : Nat
  inputs : Json
  outputs : Json
  artifacts : List Json
  metrics : Json
  timeline : Json
  history : Json
  error : Option Json

/-- Timestamps are modelled as integer instants; `isoformat()` becomes
`toString` and `(b - a).total_seconds()` becomes `b - a` (exact, so the
`round(_, 3)` in the source is the identity on this domain). -/
def isoOf (t : Int) : String := toString t

/-- The synthetic node built for one accepted flow-spec entry
(flow_spec.py:142-186). -/
def mkSynNode (fs : Json) (t0 t1 : Int) (entry : Json) : PNode :=
  let rawId := rawIdOf entry
  let label := pyStrip (pyStr (pyOr (getAttr entry "label")
    (pyOr (getAttr entry "name") (Json.str rawId))))
  let ntype0 := pyStrip (pyStr (pyOr (getAttr entry "type") (Json.str "flow")))
  let ntype := if ntype0 = "" then "flow" else ntype0
  { id := "flow::" ++ rawId
    type := ntype
    summary := label
    depends_on := synDeps fs rawId
    status := "succeeded"
    attempt := 1
    inputs := .obj [("flow_spec_node", entry)]
    outputs := .obj [("notes", .str "Synthetic node derived from flow_spec JSON."),
                     ("source", .str "flow_spec"),
                     ("node_id", .str rawId)]
    artifacts := []
    metrics := .obj [("flow_spec_type", .str ntype)]
    timeline := .obj [("queued_at", .str (isoOf t0)), ("started_at", .str (isoOf t0)),
                      ("ended_at", .str (isoOf t1)), ("duration_seconds", .int (t1 - t0))]
    history := .arr [.obj [("attempt_id", .int 1), ("timestamp", .str (isoOf t1)),
                           ("status", .str "succeeded"),
                           ("notes", .str "Generated from flow_spec JSON.")]]
    error := none }

/-- `build_flow_nodes` (flow_spec.py:107-188): non-dict entries and entries
whose stringified-stripped `id`-or-`name` is empty are skipped; every other
entry yields one synthetic node. -/
def buildFlowNodes (fs : Json) (t0 t1 : Int) : List PNode :=
  match getAttr fs "nodes" with
  | .arr ns => (ns.filter (fun e => e.isObj && rawIdOf e ≠ "")).map (mkSynNode fs t0 t1)
  | _ => []

/-! ## `plan.py` -/

/-- `build_metrics` (plan.py:137-150). -/
def buildMetrics (usage : Json) (evaluation_payload : Option Json) : Json :=
  let base := [(("usage" : String), usage)]
  match evaluation_payload with
  | none => .obj base
  | some ep =>
    if ¬pyTruthy ep then .obj base
    else
      let score := getAttr ep "score"
      let m1 := if ¬(score matches .null) then base ++ [("evaluation_score", score)] else base
      let eu := getAttr ep "usage"
      let m2 := if pyTruthy eu then m1 ++ [("evaluation_usage", eu)] else m1
      let er := getAttr ep "error"
      let m3 := if pyTruthy er then m2 ++ [("evaluation_error", er)] else m2
      .obj m3

/-- The plan document assembled by `build_plan_document` (plan.py:24-122);
constant bookkeeping strings are kept, YAML serialization is out of scope. -/
structure PlanDoc where
  schema_version : String
  plan_id : String
  name : String
  description : String
  created_at : String
  last_updated : String
  created_by : String
  version : Nat
  status : String
  nodes : List PNode
  completion_percentage : Nat
  counts_succeeded : Nat
  counts_failed : Nat
  last_writer : String
  metadata_codex_events_count : Option Nat
  eval_metrics : Option (List (String × Json))

/-- `build_plan_document` (plan.py:24-122). -/
def buildPlanDocument (plan_id prompt summary plan_status node_status : String)
    (outputs : List (String × Json)) (usage : Json) (events : List Json)
    (error_payload : Option Json) (run_started run_finished : Int)
    (duration_seconds : Int) (notes : String) (evaluation_payload : Option Json)
    (synthetic_nodes : Option (List PNode)) : PlanDoc :=
  let created_iso := isoOf run_started
  let finished_iso := isoOf run_finished
  let nstatus := if node_status = "succeeded" then "succeeded" else "failed"
  let node : PNode :=
    { id := "codex_execution"
      type := "agent"
      summary := if summary ≠ "" then summary else "Codex execution"
      depends_on := []
      status := nstatus
      attempt := 1
      inputs := .obj [("prompt", .str prompt)]
      outputs := .obj outputs
      artifacts := []
      metrics := buildMetrics usage evaluation_payload
      timeline := .obj [("queued_at", .str created_iso), ("started_at", .str created_iso),
                        ("ended_at", .str finished_iso),
                        ("duration_seconds", .int duration_seconds)]
      history := .arr [.obj [("attempt_id", .int 1), ("timestamp", .str finished_iso),
                             ("status", .str nstatus), ("notes", .str notes)]]
      error := match error_payload with
               | some e => if pyTruthy e then some e else none
               | none => none }
  let nodes := node :: (match synthetic_nodes with
                        | some syn => syn
                        | none => [])
  let succCount := (nodes.filter (fun n => n.status == "succeeded")).length
  let failCount := (nodes.filter (fun n => n.status == "failed")).length
  let evalMetrics : Option (List (String × Json)) :=
    match evaluation_payload with
    | none => none
    | some ep =>
      if ¬pyTruthy ep then none
      else
        let score := if ep.isObj then getAttr ep "score" else Json.null
        let em1 : List (String × Json) :=
          if ¬(score matches .null) then [("self_evaluation_score", score)] else []
        let er := if ep.isObj then getAttr ep "error" else Json.null
        let em2 := if pyTruthy er then em1 ++ [("self_evaluation_error", er)] else em1
        if em2.isEmpty then none else some em2
  { schema_version := "1.0"
    plan_id := plan_id
    name := if summary ≠ "" then summary else "Codex execution"
    description := prompt
    created_at := created_iso
    last_updated := finished_iso
    created_by := "agentflow-cli@local"
    version := 1
    status := plan_status
    nodes := nodes
    completion_percentage := if plan_status = "completed" then 100 else 0
    counts_succeeded := succCount
    counts_failed := failCount
    last_writer := "agentflow-cli@local"
    metadata_codex_events_count := if events.isEmpty then none else some events.length
    eval_metrics := evalMetrics }

/-! ## Adapters (`adapters/*.py`)

The subprocess boundary is abstracted away: an adapter run is modelled from
the point where `completed.stdout` is in hand.  A JSON-Lines stdout is
represented by its `splitlines()` decomposition, each line carried together
with its `json.loads` result (`none` = `JSONDecodeError`); the concrete lines
used in theorems record the real behaviour of `json.loads` on their text. -/

/-- One stdout line paired with its `json.loads` outcome. -/
structure SLine where
  text : String
  loads : Option Json

/-- `completed.stdout` reassembled from its lines (faithful up to a trailing
newline, which every use below strips anyway). -/
def stdoutOf (lines : List SLine) : String :=
  String.intercalate "\n" (lines.map (·.text))

/-- The dataclass result shared by the adapters (`message`, `events`,
`usage`).  `message` stays a `Json` value because the source stores
`item.get("text", "")` without coercion. -/
structure ResultJ where
  message : Json
  events : List Json
  usage : Json

/-- Outcome of an adapter's stdout processing: a result, the adapter's own
CLI-error kind, or an uncaught Python exception. -/
inductive AOut where
  | ok (r : ResultJ)
  | err (msg : String)
  | crash (msg : String)

/-- Is this `Json` the `null` value (Python `None`)? -/
def Json.isNull : Json → Bool
  | .null => true
  | _ => false

/-- The JSONL loop of `CodexCLIAdapter.run` (codex_cli.py:107-131).
`msg = .null` models `message_text = None`. -/
def codexGo : List SLine → List Json → Json → Json → AOut
  | [], evs, msg, usage =>
    if msg.isNull then .err "Codex CLI completed without emitting an agent_message event."
    else .ok ⟨msg, evs, usage⟩
  | l :: rest, evs, msg, usage =>
    if pyStrip l.text = "" then codexGo rest evs msg usage
    else
      match l.loads with
      | none => .err "Failed to parse Codex JSON event"
      | some ev =>
        if !ev.isObj then .crash "AttributeError"
        else
          let evs' := evs ++ [ev]
          let item := getAttr ev "item"
          if pyTruthy item && !item.isObj then .crash "AttributeError"
          else
            let msg' := if pyTruthy item && jEqStr (getAttr item "type") "agent_message"
                        then getAttrD item "text" (.str "") else msg
            let usage' := if jEqStr (getAttr ev "type") "turn.completed"
                          then getAttrD ev "usage" (.obj []) else usage
            codexGo rest evs' msg' usage'

/-- `CodexCLIAdapter.run` from stdout onward. -/
def codexRun (lines : List SLine) : AOut :=
  codexGo lines [] .null (.obj [])

/-- The JSONL loop of `CopilotCLIAdapter.run` (copilot_cli.py:104-136): an
unparseable line discards collected events and breaks to the raw-stdout
fallback; a final `None` message also falls back to `stdout.strip()`. -/
def copilotGo (stdout : String) : List SLine → List Json → Json → Json → AOut
  | [], evs, msg, usage =>
    if msg.isNull then .ok ⟨.str (pyStrip stdout), evs, usage⟩
    else .ok ⟨msg, evs, usage⟩
  | l :: rest, evs, msg, usage =>
    if pyStrip l.text = "" then copilotGo stdout rest evs msg usage
    else
      match l.loads with
      | none => .ok ⟨.str (pyStrip stdout), [], usage⟩
      | some ev =>
        if !ev.isObj then .crash "AttributeError"
        else
          let evs' := evs ++ [ev]
          let item := getAttr ev "item"
          if pyTruthy item && !item.isObj then .crash "AttributeError"
          else
            let msg' := if pyTruthy item &&
                          (jEqStr (getAttr item "type") "agent_message" ||
                           jEqStr (getAttr item "type") "assistant_message")
                        then getAttrD item "text" (.str "") else msg
            let usage' := if jEqStr (getAttr ev "type") "turn.completed"
                          then getAttrD ev "usage" (.obj []) else usage
            copilotGo stdout rest evs' msg' usage'

/-- `CopilotCLIAdapter.run` from stdout onward. -/
def copilotRun (lines : List SLine) : AOut :=
  copilotGo (stdoutOf lines) lines [] .null (.obj [])

/-- The JSONL loop of `GeminiCLIAdapter.run` (gemini_cli.py:115-142):
behaviourally the Copilot loop with the accepted item types listed in the
other order. -/
def geminiGo (stdout : String) : List SLine → List Json → Json → Json → AOut
  | [], evs, msg, usage =>
    if msg.isNull then .ok ⟨.str (pyStrip stdout), evs, usage⟩
    else .ok ⟨msg, evs, usage⟩
  | l :: rest, evs, msg, usage =>
    if pyStrip l.text = "" then geminiGo stdout rest evs msg usage
    else
      match l.loads with
      | none => .ok ⟨.str (pyStrip stdout), [], usage⟩
      | some ev =>
        if !ev.isObj then .crash "AttributeError"
        else
          let evs' := evs ++ [ev]
          let item := getAttr ev "item"
          if pyTruthy item && !item.isObj then .crash "AttributeError"
          else
            let msg' := if pyTruthy item &&
                          (jEqStr (getAttr item "type") "assistant_message" ||
                           jEqStr (getAttr item "type") "agent_message")
                        then getAttrD item "text" (.str "") else msg
            let usage' := if jEqStr (getAttr ev "type") "turn.completed"
                          then getAttrD ev "usage" (.obj []) else usage
            geminiGo stdout rest evs' msg' usage'

/-- `GeminiCLIAdapter.run` from stdout onward. -/
def geminiRun (lines : List SLine) : AOut :=
  geminiGo (stdoutOf lines) lines [] .null (.obj [])

/-- The content-block scan of `ClaudeCLIAdapter.run` (claude_cli.py:146-153):
collect stripped text of dict blocks whose lowered `type` is `"text"`.  A
truthy non-string `type` would hit `.lower()` and raise. -/
def claudeBlocks : List Json → List String → Except String (List String)
  | [], acc => .ok acc
  | b :: bs, acc =>
    if ¬b.isObj then claudeBlocks bs acc
    else
      match pyOr (getAttr b "type") (.str "") with
      | .str ts =>
        if pyLower ts = "text" then
          match getAttr b "text" with
          | .str x => if pyStrip x ≠ "" then claudeBlocks bs (acc ++ [pyStrip x])
                      else claudeBlocks bs acc
          | _ => claudeBlocks bs acc
        else claudeBlocks bs acc
      | _ => .error "AttributeError"

/-- `usage = payload.get("usage", {}) or {}` guarded by the `isinstance`
check (claude_cli.py:142-144). -/
def claudeUsage (payload : Json) : Json :=
  if payload.isObj then pyOr (getAttrD payload "usage" (.obj [])) (.obj [])
  else .obj []

/-- `payload.get("content")` when it is a list (claude_cli.py:145-146). -/
def claudeContent (payload : Json) : List Json :=
  if payload.isObj then
    match getAttr payload "content" with
    | .arr bs => bs
    | _ => []
  else []

/-- The joined-and-stripped message text with the `message`-key fallback
(claude_cli.py:155-160). -/
def claudeMessageOf (payload : Json) (parts : List String) : String :=
  let m1 := pyStrip (String.intercalate "\n\n" parts)
  if m1 = "" then
    match (if payload.isObj then getAttr payload "message" else Json.null) with
    | .str c => if pyStrip c ≠ "" then pyStrip c else m1
    | _ => m1
  else m1

/-- `ClaudeCLIAdapter.run` from stdout onward (claude_cli.py:129-165): one
`json.loads` over the stripped stdout, text blocks joined with blank lines,
a `message` string fallback, and an error when no assistant text remains. -/
def claudeRun (parse : String → Option Json) (stdoutRaw : String) : AOut :=
  if pyStrip stdoutRaw = "" then .err "Anthropic CLI produced no output."
  else
    match parse (pyStrip stdoutRaw) with
    | none => .err "Failed to parse Anthropic JSON response"
    | some payload =>
      match claudeBlocks (claudeContent payload) [] with
      | .error e => .crash e
      | .ok parts =>
        if claudeMessageOf payload parts = "" then
          .err "Anthropic CLI response did not contain assistant text content."
        else .ok ⟨.str (claudeMessageOf payload parts), [], claudeUsage payload⟩

/-! Spec-side observers used to state the JSONL normalization claims. -/

/-- Codex's message predicate: a truthy `item` whose `type` is
`"agent_message"`. -/
def isMsgEventCodex (ev : Json) : Bool :=
  pyTruthy (getAttr ev "item") && jEqStr (getAttr (getAttr ev "item") "type") "agent_message"

/-- Copilot/Gemini message predicate: truthy `item` with `type` in
`agent_message`/`assistant_message`. -/
def isMsgEventCG (ev : Json) : Bool :=
  pyTruthy (getAttr ev "item") &&
    (jEqStr (getAttr (getAttr ev "item") "type") "agent_message" ||
     jEqStr (getAttr (getAttr ev "item") "type") "assistant_message")

/-- `turn.completed` predicate. -/
def isTurnCompleted (ev : Json) : Bool :=
  jEqStr (getAttr ev "type") "turn.completed"

/-- Last event of the stream satisfying `p`. -/
def lastWith (p : Json → Bool) (evs : List Json) : Option Json :=
  evs.reverse.find? p

/-- The `text` carried by a message event (default `""`, as in
`item.get("text", "")`). -/
def eventText (ev : Json) : Json :=
  getAttrD (getAttr ev "item") "text" (.str "")

/-- The usage of the last `turn.completed` event, or the empty dict. -/
def lastUsage (evs : List Json) : Json :=
  match lastWith isTurnCompleted evs with
  | some ev => getAttrD ev "usage" (.obj [])
  | none => .obj []

/-- A parsed event the loops traverse without raising, and whose `text` (when
it is a message event) is not `null` (a `null` text re-arms the missing-
message fallback). -/
def goodEvent (ev : Json) : Bool :=
  ev.isObj &&
    (!pyTruthy (getAttr ev "item") ||
      ((getAttr ev "item").isObj &&
        (!(jEqStr (getAttr (getAttr ev "item") "type") "agent_message" ||
           jEqStr (getAttr (getAttr ev "item") "type") "assistant_message") ||
         !(getAttrD (getAttr ev "item") "text" (.str "")).isNull)))

/-- A line that is blank or parses to a good event. -/
def goodLine (l : SLine) : Bool :=
  pyStrip l.text = "" ||
    (match l.loads with
     | some ev => goodEvent ev
     | none => false)

/-- Every line blank or a good event: the domain on which the JSONL loops run
to completion. -/
def wellShaped (lines : List SLine) : Bool :=
  lines.all goodLine

/-- The events collected from a fully parseable stream (blank lines
skipped). -/
def parsedEvents (lines : List SLine) : List Json :=
  lines.filterMap (fun l => if pyStrip l.text = "" then none else l.loads)

/-- The message Copilot/Gemini normalize to: text of the last message event,
else the trimmed stdout. -/
def cgMessage (lines : List SLine) : Json :=
  match lastWith isMsgEventCG (parsedEvents lines) with
  | some ev => eventText ev
  | none => .str (pyStrip (stdoutOf lines))

/-! ## `evaluation.py` -/

/-- Exception classes distinguished by the embedded `except` clauses:
`CodexCLIError` (the class the pipeline and helpers catch) versus any other
exception (which propagates). -/
inductive ExcKind where
  | codexCLIError
  | otherExc
  deriving DecidableEq

/-- The result type the pipeline consumes (`message` is used as a `str` by
every downstream stage). -/
structure ResM where
  message : String
  events : List Json
  usage : Json

/-- An adapter's `run`, abstracted over the prompt: a result or a raised
exception of one of the two kinds. -/
def AdapterM : Type := String → Except (ExcKind × String) ResM

/-- `float(x)` under `except (TypeError, ValueError)`: numbers and bools
coerce; numeric strings parse (plain sign/digits/decimal forms — the only
shapes the repo meets); everything else yields `None`. -/
def parseFloatStr (s : String) : Option Rat :=
  let t := pyStrip s
  let (sign, u) : Rat × List Char :=
    match t.data with
    | '-' :: rest => (-1, rest)
    | '+' :: rest => (1, rest)
    | l => (1, l)
  let ip := u.takeWhile Char.isDigit
  let rest1 := u.dropWhile Char.isDigit
  match rest1 with
  | [] =>
    if ip.isEmpty then none
    else some (sign * ((ip.foldl (fun n c => n * 10 + (c.toNat - 48)) 0 : Nat) : Rat))
  | '.' :: fr =>
    let fp := fr.takeWhile Char.isDigit
    if fr.dropWhile Char.isDigit ≠ [] then none
    else if ip.isEmpty && fp.isEmpty then none
    else
      let ipn : Nat := ip.foldl (fun n c => n * 10 + (c.toNat - 48)) 0
      let fpn : Nat := fp.foldl (fun n c => n * 10 + (c.toNat - 48)) 0
      some (sign * ((ipn : Rat) + (fpn : Rat) / ((10 : Rat) ^ fp.length)))
  | _ => none

/-- Python `float()` applied to a loaded value. -/
def pyFloat : Json → Option Rat
  | .int n => some (n : Rat)
  | .float q => some q
  | .bool b => some (if b then 1 else 0)
  | .str s => parseFloatStr s
  | _ => none

/-- First match of `([0-9]+(?:\.[0-9]+)?)` in a line
(evaluation.py:108). -/
def firstNumber (cs : List Char) : Option Rat :=
  match cs with
  | [] => none
  | c :: rest =>
    if c.isDigit then
      let ip := (c :: rest).takeWhile Char.isDigit
      let tail1 := (c :: rest).dropWhile Char.isDigit
      let (fp, _) : List Char × List Char :=
        match tail1 with
        | '.' :: fr =>
          let f := fr.takeWhile Char.isDigit
          if f.isEmpty then ([], []) else (f, [])
        | _ => ([], [])
      let ipn : Nat := ip.foldl (fun n ch => n * 10 + (ch.toNat - 48)) 0
      let fpn : Nat := fp.foldl (fun n ch => n * 10 + (ch.toNat - 48)) 0
      some ((ipn : Rat) + (fpn : Rat) / ((10 : Rat) ^ fp.length))
    else firstNumber rest

/-- `re.fullmatch(r"[0-9]+(?:\.[0-9]+)?", s)` (evaluation.py:116). -/
def isNumericOnly (s : String) : Bool :=
  let ip := s.data.takeWhile Char.isDigit
  let rest := s.data.dropWhile Char.isDigit
  ¬ip.isEmpty &&
    (match rest with
     | [] => true
     | '.' :: fr => ¬fr.isEmpty && fr.all Char.isDigit
     | _ => false)

/-- The inner justification-accumulation loop (evaluation.py:128-136): take
following non-empty lines until another keyword line. -/
def heuristicInner : List String → List String → List String
  | [], parts => parts
  | raw :: rest, parts =>
    let st := pyStrip raw
    if st = "" then heuristicInner rest parts
    else
      let fn := pyStrip (pyLstripBullet st)
      let fl := pyLower fn
      if pyStarts ("score") fl || pyStarts ("reason") fl ||
         pyStarts ("justification") fl || pyStarts ("rationale") fl
      then parts
      else heuristicInner rest (parts ++ [fn])

/-- Text after the first colon of a line, stripped (the reason-line split). -/
def afterColon (s : String) : String :=
  pyStrip ⟨(s.data.dropWhile (fun c => c ≠ ':')).drop 1⟩

/-- The outer scanning loop of `parse_plaintext_evaluation`
(evaluation.py:99-137). -/
def heuristicOuter : List String → Option Rat → Option Rat × List String
  | [], score => (score, [])
  | raw :: rest, score =>
    let st := pyStrip raw
    if st = "" then heuristicOuter rest score
    else
      let nz := pyStrip (pyLstripBullet st)
      let lw := pyLower nz
      if pyStarts ("score") lw then
        heuristicOuter rest
          (match firstNumber nz.data with
           | some q => some q
           | none => score)
      else if isNumericOnly nz then
        heuristicOuter rest (firstNumber nz.data)
      else if pyStarts ("reason") lw || pyStarts ("justification") lw ||
              pyStarts ("rationale") lw then
        let text := if nz.data.contains ':' then afterColon nz else nz
        let parts0 := if text ≠ "" then [text] else []
        (score, heuristicInner rest parts0)
      else heuristicOuter rest score

/-- `parse_plaintext_evaluation` (evaluation.py:91-143): `.null` models the
source's `None` result. -/
def parsePlaintextEvaluation (message : String) : Json :=
  match heuristicOuter (splitNl message) none with
  | (none, _) => .null
  | (some q, parts) =>
    let j := pyStrip (String.intercalate " " parts)
    .obj [("score", .float q), ("justification", if j = "" then Json.null else .str j)]

/-- The fence-stripping preamble of `parse_evaluation_payload`
(evaluation.py:51-55). -/
def fenceAdjust (c : String) : String :=
  if pyStarts ("```") c then
    let c2 := pyStripChar btick c
    if c2.data.contains '\n' then ⟨(c2.data.dropWhile (fun ch => ch ≠ '\n')).drop 1⟩
    else c2
  else c

/-- `parse_evaluation_payload` (evaluation.py:49-73).  When the strict tier
parses a non-dict, `payload.get("score")` raises `AttributeError` — modelled
by the `error` channel. -/
def parseEvaluationPayload (parse : String → Option Json) (message : String) :
    Except String Json :=
  let candidate := fenceAdjust (pyStrip message)
  match parse candidate with
  | some payload =>
    if ¬payload.isObj then .error "AttributeError"
    else
      let score0 := getAttr payload "score"
      let score := if ¬score0.isNull then
                     match pyFloat score0 with
                     | some q => Json.float q
                     | none => Json.null
                   else Json.null
      let j0 := pyOr (getAttr payload "justification") (getAttr payload "reasoning")
      let just := if ¬j0.isNull then Json.str (pyStrip (pyStr j0)) else Json.null
      .ok (.obj [("score", score), ("justification", just)])
  | none => .ok (parsePlaintextEvaluation message)

/-- The judge prompt assembled by `perform_self_evaluation`
(evaluation.py:16-29). -/
def evaluationPrompt (prompt response : String) : String :=
  "You are an impartial self-evaluation judge. Score how well the assistant's reply satisfied the " ++
  "original prompt. The score must be a float between 0.0 and 1.0 inclusive, where 1.0 represents a perfect answer.\n" ++
  "Respond STRICTLY with a single-line JSON object of the form " ++
  "\x7b\"score\": <float>, \"justification\": \"<concise reasoning>\"\x7d.\n" ++
  "Do not emit any extra text, markdown, or code fences. If you cannot evaluate, still return JSON with score 0.0.\n" ++
  "Conversation to evaluate:\nUser:\n<<<\n" ++ prompt ++ "\n>>>\nAssistant:\n<<<\n" ++
  response ++ "\n>>>\n"

/-- `perform_self_evaluation` (evaluation.py:10-46): returns the payload
dict, or propagates a non-`CodexCLIError` exception. -/
def performSelfEvaluation (parse : String → Option Json) (adapter : AdapterM)
    (prompt response : String) : Except String Json :=
  match adapter (evaluationPrompt prompt response) with
  | .error (.codexCLIError, e) =>
    .ok (.obj [("error", .str ("Self-evaluation failed: " ++ e))])
  | .error (.otherExc, e) => .error e
  | .ok r =>
    match parseEvaluationPayload parse r.message with
    | .error e => .error e
    | .ok parsed =>
      let payload := [(("raw_message" : String), Json.str r.message),
                      ("events", Json.arr r.events),
                      ("usage", pyOr r.usage (.obj []))]
      if pyTruthy parsed then
        match parsed with
        | .obj kvs => .ok (.obj (kvs.foldl (fun m p => dset m p.1 p.2) payload))
        | _ => .ok (.obj payload)
      else
        .ok (.obj (payload ++ [("error", .str "Self-evaluation response was not valid JSON.")]))

/-- `build_evaluation_outputs` (evaluation.py:76-88). -/
def buildEvaluationOutputs (ep : Json) : Json :=
  let o : List (String × Json) := []
  let o := if ¬(getAttr ep "score").isNull then o ++ [("score", getAttr ep "score")] else o
  let o := if pyTruthy (getAttr ep "justification") then
             o ++ [("justification", getAttr ep "justification")] else o
  let o := if pyTruthy (getAttr ep "error") then o ++ [("error", getAttr ep "error")] else o
  .obj (o ++ [("raw_message", getAttrD ep "raw_message" (.str "")),
              ("events", getAttrD ep "events" (.arr [])),
              ("usage", getAttrD ep "usage" (.obj []))])

/-! ## Flow-spec compiler call (`flow_spec.py:73-104`) -/

/-- `FLOW_SPEC_COMPILER_PROMPT.format(pseudo_code=...)` (flow_spec.py:12-30,
75): the dedented template around the stripped pseudo code. -/
def flowSpecCompilerPrompt (pseudo : String) : String :=
  "You are the AgentFlowLanguage compiler. Convert the provided pseudo code or natural language routine into a structured flow description.\n\n" ++
  "Return your answer as a markdown ```json``` block containing an object with exactly these keys:\n" ++
  "  - \"flow_spec\": a JSON object with \"nodes\" (list) and \"edges\" (list) describing the control flow. Each node must include \"id\", \"label\", and \"type\".\n" ++
  "  - \"agentflowlanguage\": a multiline string that mirrors the flow using AgentFlowLanguage syntax with constructs such as while(), if(), else, and semicolon-terminated actions.\n\n" ++
  "Flow spec requirements:\n" ++
  "  * Use the node types \"action\", \"branch\", \"loop\", or other canonical AgentFlow types.\n" ++
  "  * Provide \"on_true\" / \"on_false\" targets for branch and loop nodes when available.\n" ++
  "  * Edges must include \"source\" and \"target\"; include a short \"label\" when it clarifies the path (e.g., \"true\", \"false\", \"loop\").\n\n" ++
  "Pseudo-code input:\n<<<\n" ++ pyStrip pseudo ++ "\n>>>\n"

/-- The dict returned by `compile_flow_spec_from_prompt`; `error` and
`agentflowlanguage` are the keys that may be absent or `None`. -/
structure CompileDetails where
  error : Option String := none
  flow_spec_payload : Option FlowPayload := none
  message : String
  events : List Json
  usage : Json
  source : String
  agentflowlanguage : Option String := none

/-- `compile_flow_spec_from_prompt` (flow_spec.py:73-104): one adapter call,
`CodexCLIError` converted into an error field, any other exception
propagated. -/
def compileFlowSpecFromPrompt (parse : String → Option Json) (adapter : AdapterM)
    (pseudo : String) : Except String CompileDetails :=
  match adapter (flowSpecCompilerPrompt pseudo) with
  | .error (.codexCLIError, e) =>
    .ok { error := some ("AgentFlowLanguage compilation failed: " ++ e)
          message := "", events := [], usage := .obj []
          source := "agentflowlanguage_compiler" }
  | .error (.otherExc, e) => .error e
  | .ok c =>
    match extractFlowSpecFromMessage parse c.message with
    | some p =>
      .ok { flow_spec_payload := some p
            message := c.message, events := c.events
            usage := pyOr c.usage (.obj [])
            source := "agentflowlanguage_compiler"
            agentflowlanguage := p.agentflowlanguage }
    | none =>
      .ok { flow_spec_payload := none
            message := c.message, events := c.events
            usage := pyOr c.usage (.obj [])
            source := "agentflowlanguage_compiler"
            error := some "Compiler response did not contain a valid flow_spec." }

/-! ## Pipeline (`pipeline.py`) over the `langgraph` shim (`langgraph/graph.py`)

`PromptRunState` is modelled as a record of optional fields (absent key =
`none`); a stage's partial update is a record of the same shape merged by the
shim's `state.update(update)`.  `datetime.now(timezone.utc)` is modelled by an
arbitrary clock `Nat → Int` sampled at an incrementing tick.  A stage either
returns an update or raises (`Except.error`), which the shim re-raises. -/

/-- The mutable run state threaded through the pipeline.  `prompt`,
`summary`, `plan_id` and `request_afl` are set by `entry.py` before
`pipeline.invoke` and no stage ever writes them. -/
structure PState where
  prompt : String
  summary : String
  plan_id : String
  request_afl : Bool
  run_started : Option Int := none
  run_finished : Option Int := none
  duration_seconds : Option Int := none
  plan_status : Option String := none
  node_status : Option String := none
  outputs : Option (List (String × Json)) := none
  usage : Option Json := none
  events : Option (List Json) := none
  notes : Option String := none
  error_payload : Option Json := none
  evaluation_payload : Option Json := none
  flow_spec_payload : Option FlowPayload := none
  flow_spec_source : Option String := none
  afl_text : Option String := none
  synthetic_nodes : Option (List PNode) := none
  codex_result : Option ResM := none
  plan_document : Option PlanDoc := none

/-- A stage's partial update (only keys present in the returned dict). -/
structure PUpd where
  run_started : Option Int := none
  run_finished : Option Int := none
  duration_seconds : Option Int := none
  plan_status : Option String := none
  node_status : Option String := none
  outputs : Option (List (String × Json)) := none
  usage : Option Json := none
  events : Option (List Json) := none
  notes : Option String := none
  error_payload : Option Json := none
  evaluation_payload : Option Json := none
  flow_spec_payload : Option FlowPayload := none
  flow_spec_source : Option String := none
  afl_text : Option String := none
  synthetic_nodes : Option (List PNode) := none
  codex_result : Option ResM := none
  plan_document : Option PlanDoc := none

/-- One key of `state.update(update)`. -/
def mergeField {α : Type} (base upd : Option α) : Option α :=
  match upd with
  | some v => some v
  | none => base

/-- `state.update(update)` over the whole record. -/
def applyUpd (s : PState) (u : PUpd) : PState :=
  { s with
    run_started := mergeField s.run_started u.run_started
    run_finished := mergeField s.run_finished u.run_finished
    duration_seconds := mergeField s.duration_seconds u.duration_seconds
    plan_status := mergeField s.plan_status u.plan_status
    node_status := mergeField s.node_status u.node_status
    outputs := mergeField s.outputs u.outputs
    usage := mergeField s.usage u.usage
    events := mergeField s.events u.events
    notes := mergeField s.notes u.notes
    error_payload := mergeField s.error_payload u.error_payload
    evaluation_payload := mergeField s.evaluation_payload u.evaluation_payload
    flow_spec_payload := mergeField s.flow_spec_payload u.flow_spec_payload
    flow_spec_source := mergeField s.flow_spec_source u.flow_spec_source
    afl_text := mergeField s.afl_text u.afl_text
    synthetic_nodes := mergeField s.synthetic_nodes u.synthetic_nodes
    codex_result := mergeField s.codex_result u.codex_result
    plan_document := mergeField s.plan_document u.plan_document }

/-- `state.get("plan_status") != "completed"`-style guard. -/
def statusIs (o : Option String) (v : String) : Bool :=
  match o with
  | some st => st = v
  | none => false

/-- `timing_update` (pipeline.py:43-48): reads `state["run_started"]`
(KeyError when absent), samples the clock once. -/
def timingUpdate (clock : Nat → Int) (s : PState) (tick : Nat) :
    Except String ((Int × Int) × Nat) :=
  match s.run_started with
  | none => .error "KeyError: run_started"
  | some t0 => .ok ((clock tick, clock tick - t0), tick + 1)

/-- `initialize` (pipeline.py:55-67). -/
def initialStage (clock : Nat → Int) (_s : PState) (tick : Nat) :
    Except String (PUpd × Nat) :=
  let now := clock tick
  .ok ({ run_started := some now, run_finished := some now,
         duration_seconds := some 0,
         plan_status := some "pending", node_status := some "pending",
         outputs := some [], usage := some (.obj []), events := some [],
         notes := some "Codex invocation pending." }, tick + 1)

/-- `invoke_model` (pipeline.py:69-99): only `CodexCLIError` is caught; any
other exception class raised by the adapter propagates. -/
def invokeModelStage (adapter : AdapterM) (clock : Nat → Int) (s : PState)
    (tick : Nat) : Except String (PUpd × Nat) :=
  match adapter s.prompt with
  | .error (.codexCLIError, e) =>
    match timingUpdate clock s tick with
    | .error ke => .error ke
    | .ok ((fin, dur), tick') =>
      .ok ({ plan_status := some "failed", node_status := some "failed",
             error_payload := some (.obj [("message", .str e)]),
             notes := some ("Codex invocation failed: " ++ e),
             outputs := some [("events", .arr [])],
             events := some [], usage := some (.obj []),
             run_finished := some fin, duration_seconds := some dur }, tick')
  | .error (.otherExc, e) => .error e
  | .ok r =>
    match timingUpdate clock s tick with
    | .error ke => .error ke
    | .ok ((fin, dur), tick') =>
      .ok ({ plan_status := some "completed", node_status := some "succeeded",
             codex_result := some r,
             outputs := some [("message", .str r.message), ("events", .arr r.events)],
             events := some r.events,
             usage := some (pyOr r.usage (.obj [])),
             notes := some "Codex invocation succeeded.",
             run_finished := some fin, duration_seconds := some dur }, tick')

/-- `parse_flow_spec` (pipeline.py:101-123). -/
def parseFlowSpecStage (parse : String → Option Json) (s : PState) (tick : Nat) :
    Except String (PUpd × Nat) :=
  if ¬statusIs s.plan_status "completed" then .ok ({}, tick)
  else
    match s.codex_result with
    | none => .ok ({}, tick)
    | some r =>
      let outputs := s.outputs.getD []
      match extractFlowSpecFromMessage parse r.message with
      | some p =>
        let o1 := dset outputs "flow_spec" p.flow_spec
        let o2 := dset o1 "flow_spec_raw" (.str p.raw_json)
        let o3 := dset o2 "flow_spec_source" (.str "assistant")
        (match p.agentflowlanguage with
         | some a =>
           .ok ({ outputs := some (dset o3 "agentflowlanguage" (.str a)),
                  afl_text := some a,
                  flow_spec_payload := some p,
                  flow_spec_source := some "assistant" }, tick)
         | none =>
           .ok ({ outputs := some o3,
                  flow_spec_payload := some p,
                  flow_spec_source := some "assistant" }, tick))
      | none => .ok ({ outputs := some outputs }, tick)

/-- `not afl_text` on `state.get("afl_text")`. -/
def aflFalsy (o : Option String) : Bool :=
  match o with
  | some a => a = ""
  | none => true

/-- `maybe_compile` (pipeline.py:125-168). -/
def mcWithPayload (details : CompileDetails) (o2 : List (String × Json)) :
    List (String × Json) × PUpd :=
  match details.flow_spec_payload with
  | some p =>
    let o3 := dset o2 "flow_spec" p.flow_spec
    let o4 := dset o3 "flow_spec_raw" (.str p.raw_json)
    let src := if details.source ≠ "" then details.source else "agentflowlanguage_compiler"
    let o5 := dset o4 "flow_spec_source" (.str src)
    (match p.agentflowlanguage with
     | some a =>
       if a ≠ "" then
         (dset o5 "agentflowlanguage" (.str a),
          ({ flow_spec_payload := some p, flow_spec_source := some src,
             afl_text := some a } : PUpd))
       else (o5, { flow_spec_payload := some p, flow_spec_source := some src })
     | none => (o5, { flow_spec_payload := some p, flow_spec_source := some src }))
  | none => (o2, ({} : PUpd))

def mcWithAfl (details : CompileDetails) (x : List (String × Json) × PUpd) :
    List (String × Json) × PUpd :=
  match details.agentflowlanguage with
  | some a =>
    if a ≠ "" then (dset x.1 "agentflowlanguage" (.str a),
                    { x.2 with afl_text := some a })
    else x
  | none => x

def maybeCompileStage (parse : String → Option Json) (adapter : AdapterM)
    (clock : Nat → Int) (s : PState) (tick : Nat) : Except String (PUpd × Nat) :=
  if ¬statusIs s.plan_status "completed" then .ok ({}, tick)
  else
    let needCompile := s.flow_spec_payload.isNone || (s.request_afl && aflFalsy s.afl_text)
    if ¬needCompile then .ok ({}, tick)
    else
      match compileFlowSpecFromPrompt parse adapter s.prompt with
      | .error e => .error e
      | .ok details =>
        let outputs := s.outputs.getD []
        let o1 := dset outputs "flow_spec_compiler"
          (.obj [("message", .str details.message), ("usage", details.usage),
                 ("events", .arr details.events), ("source", .str details.source)])
        let o2 := match details.error with
                  | some e => if e ≠ "" then dset o1 "flow_spec_compiler_error" (.str e) else o1
                  | none => o1
        let withAfl := mcWithAfl details (mcWithPayload details o2)
        match timingUpdate clock s tick with
        | .error ke => .error ke
        | .ok ((fin, dur), tick') =>
          .ok ({ withAfl.2 with
                 outputs := some withAfl.1,
                 run_finished := some fin, duration_seconds := some dur }, tick')

/-- `self_evaluate` (pipeline.py:170-190). -/
def selfEvaluateStage (parse : String → Option Json) (adapter : AdapterM)
    (clock : Nat → Int) (s : PState) (tick : Nat) : Except String (PUpd × Nat) :=
  if ¬statusIs s.plan_status "completed" then .ok ({}, tick)
  else
    match s.codex_result with
    | none => .ok ({}, tick)
    | some r =>
      match performSelfEvaluation parse adapter s.prompt r.message with
      | .error e => .error e
      | .ok payload =>
        if ¬pyTruthy payload then .ok ({}, tick)
        else
          let outputs := dset (s.outputs.getD []) "evaluation" (buildEvaluationOutputs payload)
          match timingUpdate clock s tick with
          | .error ke => .error ke
          | .ok ((fin, dur), tick') =>
            .ok ({ evaluation_payload := some payload, outputs := some outputs,
                   run_finished := some fin, duration_seconds := some dur }, tick')

/-- `synthesize_nodes` (pipeline.py:192-211). -/
def synthesizeNodesStage (s : PState) (tick : Nat) : Except String (PUpd × Nat) :=
  if ¬statusIs s.plan_status "completed" then .ok ({}, tick)
  else
    match s.flow_spec_payload with
    | none => .ok ({}, tick)
    | some p =>
      match s.run_started with
      | none => .error "KeyError: run_started"
      | some t0 =>
        let t1 := s.run_finished.getD t0
        let syn := buildFlowNodes p.flow_spec t0 t1
        let outputs := s.outputs.getD []
        let outputs' :=
          if ¬syn.isEmpty then
            let o1 := dsetdefault outputs "flow_spec" p.flow_spec
            match s.flow_spec_source with
            | some src => if src ≠ "" then dset o1 "flow_spec_source" (.str src) else o1
            | none => o1
          else outputs
        .ok ({ synthetic_nodes := some syn, outputs := some outputs' }, tick)

/-- `build_plan` (pipeline.py:213-253). -/
def buildPlanStage (clock : Nat → Int) (s : PState) (tick : Nat) :
    Except String (PUpd × Nat) :=
  let outputs0 := dsetdefault (s.outputs.getD []) "events" (.arr (s.events.getD []))
  let flowSpecTruthy := match dget outputs0 "flow_spec" with
                        | some v => pyTruthy v
                        | none => false
  let outputs :=
    match s.flow_spec_source with
    | some src => if src ≠ "" && flowSpecTruthy then dset outputs0 "flow_spec_source" (.str src)
                  else outputs0
    | none => outputs0
  match s.run_started with
  | none => .error "KeyError: run_started"
  | some rs =>
    let prev := s.run_finished.getD rs
    let nowT := clock tick
    let rf := if nowT > prev then nowT else prev
    let dur := if nowT > prev then nowT - rs else s.duration_seconds.getD (prev - rs)
    let doc := buildPlanDocument s.plan_id s.prompt s.summary
      (s.plan_status.getD "failed") (s.node_status.getD "failed") outputs
      (s.usage.getD (.obj [])) (s.events.getD []) s.error_payload rs rf dur
      (s.notes.getD "") s.evaluation_payload s.synthetic_nodes
    .ok ({ plan_document := some doc, outputs := some outputs,
           run_finished := some rf, duration_seconds := some dur }, tick + 1)

/-- The pipeline's stage names, as registered with `graph.add_node`. -/
inductive Stage where
  | initial
  | invokeModel
  | parseFlowSpec
  | maybeCompile
  | selfEvaluate
  | synthesizeNodes
  | buildPlan
  deriving DecidableEq

/-- Dispatch a registered node function. -/
def stageRun (parse : String → Option Json) (adapter : AdapterM)
    (clock : Nat → Int) : Stage → PState → Nat → Except String (PUpd × Nat)
  | .initial => initialStage clock
  | .invokeModel => invokeModelStage adapter clock
  | .parseFlowSpec => parseFlowSpecStage parse
  | .maybeCompile => maybeCompileStage parse adapter clock
  | .selfEvaluate => selfEvaluateStage parse adapter clock
  | .synthesizeNodes => synthesizeNodesStage
  | .buildPlan => buildPlanStage clock

/-- `post_invoke_route` (pipeline.py:255-256). -/
def postInvokeRoute (s : PState) : String :=
  if statusIs s.plan_status "failed" then "failure" else "success"

/-- The next node per the shim (`graph.py:67-80`): conditional edges first,
then plain edges; `none` is the `END`/no-edge terminator.  Edges as added in
pipeline.py:266-277. -/
def nextStage (s : PState) : Stage → Option Stage
  | .initial => some .invokeModel
  | .invokeModel =>
    ((([("failure", Stage.buildPlan), ("success", Stage.parseFlowSpec)]).find?
        (fun p => p.1 == postInvokeRoute s)).map (·.2))
  | .parseFlowSpec => some .maybeCompile
  | .maybeCompile => some .selfEvaluate
  | .selfEvaluate => some .synthesizeNodes
  | .synthesizeNodes => some .buildPlan
  | .buildPlan => none

/-- Outcome of `pipeline.invoke`: final state, the sequence of stages that
began executing, and the exception that escaped, if any. -/
structure PipelineResult where
  state : PState
  trace : List Stage
  crashed : Option String

/-- The shim's `CompiledPipeline.invoke` loop (`graph.py:48-80`), with fuel
(the concrete graph needs at most 7 steps). -/
def runFrom (parse : String → Option Json) (adapter : AdapterM) (clock : Nat → Int) :
    Nat → Stage → PState → Nat → List Stage → PipelineResult
  | 0, _, s, _, tr => ⟨s, tr, some "fuel exhausted"⟩
  | fuel + 1, cur, s, tick, tr =>
    let tr' := tr ++ [cur]
    match stageRun parse adapter clock cur s tick with
    | .error e => ⟨s, tr', some e⟩
    | .ok (u, tick') =>
      let s' := applyUpd s u
      match nextStage s' cur with
      | none => ⟨s', tr', none⟩
      | some n => runFrom parse adapter clock fuel n s' tick' tr'

/-- One prompt execution: the initial state as `entry.py:88-94` builds it,
entered at the graph's entry point. -/
def runPipeline (parse : String → Option Json) (adapter : AdapterM)
    (clock : Nat → Int) (prompt summary plan_id : String) (request_afl : Bool) :
    PipelineResult :=
  runFrom parse adapter clock 10 .initial
    { prompt := prompt, summary := summary, plan_id := plan_id,
      request_afl := request_afl } 0 []

/-- The condition under which `parse_evaluation_payload` cannot raise on a
given response message: the strict tier either fails to parse or parses to a
dict. -/
def evalParseSafe (parse : String → Option Json) (msg : String) : Bool :=
  match parse (fenceAdjust (pyStrip msg)) with
  | some j => j.isObj
  | none => true

/-! ## Further spec-side observers -/

/-- Running-message update over a batch of events: the text of the last
event matching `p`, else the incoming candidate. -/
def updMsg (p : Json → Bool) (evs : List Json) (msg : Json) : Json :=
  match lastWith p evs with
  | some e => eventText e
  | none => msg

/-- Running-usage update over a batch of events. -/
def updUsage (evs : List Json) (usage : Json) : Json :=
  match lastWith isTurnCompleted evs with
  | some e => getAttrD e "usage" (.obj [])
  | none => usage

/-- A message embedding a serialized payload in a fenced json block. -/
def embedMessage (s : String) : String :=
  "```json\n" ++ s ++ "\n```"

/-- The raw ids `build_flow_nodes` emits, in order. -/
def emittedIds (fs : Json) : List String :=
  match getAttr fs "nodes" with
  | .arr ns => (ns.filter (fun e => e.isObj && rawIdOf e ≠ "")).map rawIdOf
  | _ => []

/-! ## Concrete instances for the closed theorems

Every `tableParse` table below records the actual result of `json.loads` on
the listed string (checked against CPython). -/

/-- A constant clock; timestamps are irrelevant to the control-flow facts. -/
def clock0 : Nat → Int := fun _ => 0

/-- An oracle for runs that never reach a successful `json.loads`. -/
def parseNone : String → Option Json := tableParse []

/-- `json.loads("0.85") == 0.85` (a bare float, not a dict). -/
def parseBareFloat : String → Option Json :=
  tableParse [("0.85", .float (85 / 100))]

/-- An adapter whose every call succeeds with the bare-number reply
`"0.85"` — a legal judge reply that the heuristic tier even anticipates. -/
def adapterBareFloat : AdapterM := fun _ => .ok ⟨"0.85", [], .obj []⟩

/-- An adapter raising `CodexCLIError` on every call. -/
def adapterCodexFail : AdapterM :=
  fun _ => .error (.codexCLIError, "Codex CLI exited with 1: boom")

/-- An adapter answering plain prose (no fence, no JSON). -/
def adapterPlain : AdapterM := fun _ => .ok ⟨"plain prose reply", [], .obj []⟩

/-- `json.loads` result of the event line carrying an `assistant_message`. -/
def evAsst : Json :=
  .obj [("item", .obj [("type", .str "assistant_message"), ("text", .str "hi")])]

/-- A stdout line whose event is an `assistant_message`. -/
def lineAsst : SLine :=
  ⟨"\x7b\"item\": \x7b\"type\": \"assistant_message\", \"text\": \"hi\"\x7d\x7d", some evAsst⟩

/-- `json.loads` result of an `agent_message` event line. -/
def evAgent : Json :=
  .obj [("item", .obj [("type", .str "agent_message"), ("text", .str "hello")])]

/-- A stdout line whose event is an `agent_message`. -/
def lineAgent : SLine :=
  ⟨"\x7b\"item\": \x7b\"type\": \"agent_message\", \"text\": \"hello\"\x7d\x7d", some evAgent⟩

/-- `json.loads` result of a `turn.completed` event line. -/
def evTurn : Json :=
  .obj [("type", .str "turn.completed"), ("usage", .obj [("input_tokens", .int 10)])]

/-- A stdout line whose event is a `turn.completed`. -/
def lineTurn : SLine :=
  ⟨"\x7b\"type\": \"turn.completed\", \"usage\": \x7b\"input_tokens\": 10\x7d\x7d", some evTurn⟩

/-- `json.loads("5") == 5`: a parseable line whose event is not a dict. -/
def lineFive : SLine := ⟨"5", some (.int 5)⟩

/-- A line that does not parse as JSON. -/
def lineBad : SLine := ⟨"notjson", none⟩

/-- `json.loads` result for the flow-spec block with an explicit
`"flow_spec": null` entry. -/
def loadedNullFS : Json := .obj [("flow_spec", .null), ("nodes", .arr [.int 1])]

/-- The message embedding that block. -/
def msgNullFS : String := "```json\n\x7b\"flow_spec\": null, \"nodes\": [1]\x7d\n```"

/-- Oracle for `msgNullFS`'s candidate. -/
def parseNullFS : String → Option Json :=
  tableParse [("\x7b\"flow_spec\": null, \"nodes\": [1]\x7d", loadedNullFS)]

/-- A flow spec with a duplicated node id and a self-edge. -/
def fsBad : Json :=
  .obj [("nodes", .arr [.obj [("id", .str "a")], .obj [("id", .str "a")]]),
        ("edges", .arr [.obj [("source", .str "a"), ("target", .str "a")]])]

/-- The plan document built from `fsBad`'s synthetic nodes. -/
def docBad : PlanDoc :=
  buildPlanDocument "plan-1" "p" "s" "completed" "succeeded" [] (.obj []) [] none
    0 0 0 "" none (some (buildFlowNodes fsBad 0 0))

/-- A well-formed two-node flow spec with one edge. -/
def fsGood : Json :=
  .obj [("nodes", .arr [.obj [("id", .str "a")], .obj [("id", .str "b")]]),
        ("edges", .arr [.obj [("source", .str "a"), ("target", .str "b")]])]

/-- A flow-spec entry whose `id` is whitespace-only (truthy) and whose
`name` is non-empty. -/
def entryShadow : Json := .obj [("id", .str "  "), ("name", .str "x")]

/-- The flow spec holding only `entryShadow`. -/
def fsShadow : Json := .obj [("nodes", .arr [entryShadow])]

/-- The inner flow spec used for the round-trip tests. -/
def flowF : Json := .obj [("nodes", .arr [.int 1])]

/-- The serialized round-trip payload with `agentflowlanguage = " x"`. -/
def rawRT : String :=
  "\x7b\"flow_spec\": \x7b\"nodes\": [1]\x7d, \"agentflowlanguage\": \" x\"\x7d"

/-- `json.loads(rawRT)`. -/
def loadedRT : Json := .obj [("flow_spec", flowF), ("agentflowlanguage", .str " x")]

/-- Oracle for the round-trip counterexample. -/
def parseRT : String → Option Json := tableParse [(rawRT, loadedRT)]

/-- The round-trip payload with already-stripped `agentflowlanguage`. -/
def rawRTw : String :=
  "\x7b\"flow_spec\": \x7b\"nodes\": [1]\x7d, \"agentflowlanguage\": \"x\"\x7d"

/-- `json.loads(rawRTw)`. -/
def loadedRTw : Json := .obj [("flow_spec", flowF), ("agentflowlanguage", .str "x")]

/-- Oracle for the round-trip witness. -/
def parseRTw : String → Option Json := tableParse [(rawRTw, loadedRTw)]

/-- A single-JSON Claude stdout with one text block and usage. -/
def claudeStdout : String :=
  "\x7b\"content\": [\x7b\"type\": \"text\", \"text\": \"hi\"\x7d], \"usage\": \x7b\"output_tokens\": 5\x7d\x7d"

/-- `json.loads(claudeStdout)`. -/
def claudePayload : Json :=
  .obj [("content", .arr [.obj [("type", .str "text"), ("text", .str "hi")]]),
        ("usage", .obj [("output_tokens", .int 5)])]

/-- Oracle for the Claude witness stdout. -/
def parseClaude : String → Option Json := tableParse [(claudeStdout, claudePayload)]

/-- An adapter answering `"{}"`, and `json.loads("{}") == {}`. -/
def adapterEmptyObj : AdapterM := fun _ => .ok ⟨"\x7b\x7d", [], .obj []⟩

/-- Oracle knowing `json.loads("{}")`. -/
def parseEmptyObj : String → Option Json := tableParse [("\x7b\x7d", .obj [])]

/-! # Helper lemmas -/

theorem mem_firstDedupAux (a : String) (l : List String) :
    ∀ seen, a ∈ firstDedupAux l seen ↔ (a ∈ l ∧ a ∉ seen) := by
  induction l with
  | nil => intro seen; simp [firstDedupAux]
  | cons x xs ih =>
    intro seen
    by_cases hx : x ∈ seen
    · rw [firstDedupAux, if_pos hx, ih seen]
      constructor
      · rintro ⟨h1, h2⟩; exact ⟨List.mem_cons_of_mem _ h1, h2⟩
      · rintro ⟨h1, h2⟩
        rcases List.mem_cons.mp h1 with rfl | h1
        · exact absurd hx h2
        · exact ⟨h1, h2⟩
    · rw [firstDedupAux, if_neg hx]
      constructor
      · intro hmem
        rcases List.mem_cons.mp hmem with rfl | hmem
        · exact ⟨List.mem_cons_self _ _, hx⟩
        · obtain ⟨h1, h2⟩ := (ih (x :: seen)).mp hmem
          exact ⟨List.mem_cons_of_mem _ h1,
            fun hc => h2 (List.mem_cons_of_mem _ hc)⟩
      · rintro ⟨h1, h2⟩
        rcases List.mem_cons.mp h1 with rfl | h1
        · exact List.mem_cons_self _ _
        · by_cases hax : a = x
          · subst hax; exact List.mem_cons_self _ _
          · refine List.mem_cons_of_mem _ ((ih (x :: seen)).mpr ⟨h1, ?_⟩)
            intro hc
            rcases List.mem_cons.mp hc with h | h
            · exact hax h
            · exact h2 h

theorem nodup_firstDedupAux (l : List String) :
    ∀ seen, (firstDedupAux l seen).Nodup := by
  induction l with
  | nil => intro seen; simp [firstDedupAux]
  | cons x xs ih =>
    intro seen
    by_cases hx : x ∈ seen
    · rw [firstDedupAux, if_pos hx]; exact ih seen
    · rw [firstDedupAux, if_neg hx]
      refine List.nodup_cons.mpr ⟨?_, ih (x :: seen)⟩
      intro hc
      exact ((mem_firstDedupAux x xs (x :: seen)).mp hc).2 (List.mem_cons_self _ _)

theorem nodup_firstDedup (l : List String) : (firstDedup l).Nodup :=
  nodup_firstDedupAux l []

theorem firstDedupAux_congr (l : List String) :
    ∀ seen₁ seen₂, (∀ a ∈ l, (a ∈ seen₁ ↔ a ∈ seen₂)) →
      firstDedupAux l seen₁ = firstDedupAux l seen₂ := by
  induction l with
  | nil => intro _ _ _; rfl
  | cons x xs ih =>
    intro seen₁ seen₂ h
    have hx := h x (List.mem_cons_self _ _)
    by_cases h1 : x ∈ seen₁
    · rw [firstDedupAux, if_pos h1, firstDedupAux, if_pos (hx.mp h1)]
      exact ih _ _ (fun a ha => h a (List.mem_cons_of_mem _ ha))
    · rw [firstDedupAux, if_neg h1, firstDedupAux, if_neg (fun hc => h1 (hx.mpr hc))]
      refine congrArg (x :: ·) (ih _ _ ?_)
      intro a ha
      simp only [List.mem_cons]
      rw [h a (List.mem_cons_of_mem _ ha)]

theorem flow_prefix_ne (s : String) : "flow::" ++ s ≠ "codex_execution" := by
  intro h
  have hd := String.ext_iff.mp h
  rw [String.data_append] at hd
  rw [show ("flow::".data) = 'f' :: "low::".data from rfl] at hd
  rw [show ("codex_execution".data) = 'c' :: "odex_execution".data from rfl] at hd
  rw [List.cons_append] at hd
  exact absurd (List.head_eq_of_cons_eq hd) (by decide)

theorem flow_prefix_inj : Function.Injective (fun s => "flow::" ++ s) := by
  intro a b h
  have hd := String.ext_iff.mp (show "flow::" ++ a = "flow::" ++ b from h)
  rw [String.data_append, String.data_append] at hd
  exact String.ext (List.append_cancel_left hd)

theorem validEdge_ne {e : Json} {p : String × String} (h : validEdge e = some p) :
    p.1 ≠ "" ∧ p.2 ≠ "" := by
  simp only [validEdge] at h
  split at h
  · simp at h
  · split at h
    · simp at h
    · rename_i hcond
      rw [Option.some.injEq] at h
      subst h
      simp only [Bool.or_eq_true, decide_eq_true_eq, not_or] at hcond
      exact hcond

theorem mem_depSources_ne_empty (fs : Json) (t s : String)
    (h : s ∈ depSources fs t) : s ≠ "" := by
  simp only [depSources, List.mem_filterMap] at h
  obtain ⟨p, hp, hif⟩ := h
  obtain ⟨e, _, hv⟩ := hp
  split at hif
  · rw [Option.some.injEq] at hif
    subst hif
    exact (validEdge_ne hv).1
  · exact absurd hif (by simp)

theorem filterMap_flow_pre (l : List String) (h : ∀ s ∈ l, s ≠ "") :
    (l.filterMap (fun s => if s ≠ "" then some ("flow::" ++ s) else none)) =
      l.map (fun s => "flow::" ++ s) := by
  induction l with
  | nil => rfl
  | cons x xs ih =>
    rw [List.filterMap_cons, List.map_cons]
    rw [if_pos (h x (List.mem_cons_self _ _))]
    rw [ih (fun s hs => h s (List.mem_cons_of_mem _ hs))]

theorem synDeps_of_no_incoming (fs : Json) (r : String)
    (h : depSources fs r = []) : synDeps fs r = ["codex_execution"] := by
  simp [synDeps, h, firstDedup, firstDedupAux]

theorem synDeps_of_incoming (fs : Json) (r : String)
    (h : depSources fs r ≠ []) :
    synDeps fs r = "codex_execution" ::
      firstDedup ((depSources fs r).map (fun s => "flow::" ++ s)) := by
  unfold synDeps
  rw [filterMap_flow_pre _ (fun s hs => mem_depSources_ne_empty fs r s hs)]
  dsimp only
  rw [if_neg (by simp [h])]
  rw [firstDedup, firstDedupAux, if_neg (by simp)]
  refine congrArg ("codex_execution" :: ·) ?_
  exact firstDedupAux_congr _ _ _ (by
    intro a ha
    obtain ⟨s, _, rfl⟩ := List.mem_map.mp ha
    simp [flow_prefix_ne s])

theorem mem_synDeps (fs : Json) (r a : String) (h : a ∈ synDeps fs r) :
    a = "codex_execution" ∨ ∃ s ∈ depSources fs r, a = "flow::" ++ s := by
  by_cases hd : depSources fs r = []
  · rw [synDeps_of_no_incoming fs r hd] at h
    simp only [List.mem_singleton] at h
    exact Or.inl h
  · rw [synDeps_of_incoming fs r hd] at h
    rcases List.mem_cons.mp h with rfl | h
    · exact Or.inl rfl
    · obtain ⟨h1, _⟩ := (mem_firstDedupAux a _ []).mp h
      obtain ⟨s, hs, rfl⟩ := List.mem_map.mp h1
      exact Or.inr ⟨s, hs, rfl⟩

theorem nodup_synDeps (fs : Json) (r : String) : (synDeps fs r).Nodup := by
  by_cases hd : depSources fs r = []
  · rw [synDeps_of_no_incoming fs r hd]; simp
  · rw [synDeps_of_incoming fs r hd]
    refine List.nodup_cons.mpr ⟨?_, nodup_firstDedup _⟩
    intro hc
    obtain ⟨h1, _⟩ := (mem_firstDedupAux _ _ []).mp hc
    obtain ⟨s, _, hs⟩ := List.mem_map.mp h1
    exact flow_prefix_ne s hs

theorem head_synDeps (fs : Json) (r : String) :
    (synDeps fs r).head? = some "codex_execution" := by
  by_cases hd : depSources fs r = []
  · rw [synDeps_of_no_incoming fs r hd]; rfl
  · rw [synDeps_of_incoming fs r hd]; rfl

theorem buildFlowNodes_map_id (fs : Json) (t0 t1 : Int) :
    (buildFlowNodes fs t0 t1).map (·.id) =
      (emittedIds fs).map (fun r => "flow::" ++ r) := by
  unfold buildFlowNodes emittedIds
  split
  · rw [List.map_map, List.map_map]; rfl
  · rfl

theorem mem_buildFlowNodes (fs : Json) (t0 t1 : Int) (n : PNode)
    (h : n ∈ buildFlowNodes fs t0 t1) :
    ∃ r ∈ emittedIds fs, n.id = "flow::" ++ r ∧ n.depends_on = synDeps fs r ∧
      n.status = "succeeded" := by
  unfold buildFlowNodes at h
  unfold emittedIds
  cases hm : getAttr fs "nodes" with
  | arr ns =>
    rw [hm] at h
    obtain ⟨e, he, rfl⟩ := List.mem_map.mp h
    exact ⟨rawIdOf e, List.mem_map_of_mem _ he, rfl, rfl, rfl⟩
  | null => rw [hm] at h; cases h
  | bool b => rw [hm] at h; cases h
  | int n' => rw [hm] at h; cases h
  | float q => rw [hm] at h; cases h
  | str s' => rw [hm] at h; cases h
  | obj kvs => rw [hm] at h; cases h

theorem buildPlanDocument_nodes (plan_id prompt summary plan_status node_status : String)
    (outputs : List (String × Json)) (usage : Json) (events : List Json)
    (error_payload : Option Json) (t0 t1 dur : Int) (notes : String)
    (ep : Option Json) (synOpt : Option (List PNode)) :
    ∃ pn, (buildPlanDocument plan_id prompt summary plan_status node_status
        outputs usage events error_payload t0 t1 dur notes ep synOpt).nodes =
      pn :: synOpt.getD [] ∧ pn.id = "codex_execution" ∧ pn.depends_on = [] := by
  cases synOpt with
  | some s => exact ⟨_, rfl, rfl, rfl⟩
  | none => exact ⟨_, rfl, rfl, rfl⟩

/-! # Claim theorems -/

/-- C6: for every flow spec and every synthetic node `build_flow_nodes`
emits, the node's `depends_on` contains no duplicates, its first element is
the primary node id `codex_execution`, a node with no incoming edges depends
solely on the primary node, a node with incoming edges additionally lists
each incoming-edge source prefixed `flow::` (de-duplicated preserving first
occurrence), and the node's status is `succeeded`. -/
theorem synthetic_node_dependencies (fs : Json) (t0 t1 : Int) (n : PNode)
    (hn : n ∈ buildFlowNodes fs t0 t1) :
    n.status = "succeeded" ∧
    n.depends_on.Nodup ∧
    n.depends_on.head? = some "codex_execution" ∧
    ∃ r, n.id = "flow::" ++ r ∧
      (depSources fs r = [] → n.depends_on = ["codex_execution"]) ∧
      (depSources fs r ≠ [] →
        n.depends_on = "codex_execution" ::
          firstDedup ((depSources fs r).map (fun s => "flow::" ++ s))) := by
  obtain ⟨r, _, hid, hdeps, hst⟩ := mem_buildFlowNodes fs t0 t1 n hn
  refine ⟨hst, ?_, ?_, r, hid, ?_, ?_⟩
  · rw [hdeps]; exact nodup_synDeps fs r
  · rw [hdeps]; exact head_synDeps fs r
  · intro h0; rw [hdeps]; exact synDeps_of_no_incoming fs r h0
  · intro h0; rw [hdeps]; exact synDeps_of_incoming fs r h0

/-- Witness for C6 at a concrete two-node flow spec with one edge. -/
theorem synthetic_node_dependencies_witness :
    mkSynNode fsGood 0 0 (.obj [("id", .str "b")]) ∈ buildFlowNodes fsGood 0 0 ∧
    (mkSynNode fsGood 0 0 (.obj [("id", .str "b")])).status = "succeeded" ∧
    (mkSynNode fsGood 0 0 (.obj [("id", .str "b")])).depends_on.head? =
      some "codex_execution" := by
  have hmem : mkSynNode fsGood 0 0 (.obj [("id", .str "b")]) ∈ buildFlowNodes fsGood 0 0 := by
    rw [show buildFlowNodes fsGood 0 0 =
      [mkSynNode fsGood 0 0 (.obj [("id", .str "a")]),
       mkSynNode fsGood 0 0 (.obj [("id", .str "b")])] from rfl]
    exact List.mem_cons_of_mem _ (List.mem_cons_self _ _)
  have h := synthetic_node_dependencies fsGood 0 0 _ hmem
  exact ⟨hmem, h.1, h.2.2.1⟩

/-- C5 counterexample: `build_plan_document` applied to the synthetic nodes
of a flow spec with a duplicated node id and a self-edge yields a document
with duplicate node ids and a self-referencing `depends_on`, violating the
claimed invariants. -/
theorem plan_document_invariants_counterexample :
    docBad.nodes.map (·.id) = ["codex_execution", "flow::a", "flow::a"] ∧
    ¬(docBad.nodes.map (·.id)).Nodup ∧
    ∃ n ∈ docBad.nodes, n.id ∈ n.depends_on := by
  obtain ⟨pn, hnodes, _, _⟩ := buildPlanDocument_nodes "plan-1" "p" "s" "completed"
    "succeeded" [] (.obj []) [] none 0 0 0 "" none (some (buildFlowNodes fsBad 0 0))
  have hdoc : docBad.nodes = pn :: buildFlowNodes fsBad 0 0 := hnodes
  refine ⟨rfl, ?_, ?_⟩
  · rw [show docBad.nodes.map (·.id) = ["codex_execution", "flow::a", "flow::a"] from rfl]
    decide
  · refine ⟨mkSynNode fsBad 0 0 (.obj [("id", .str "a")]), ?_, ?_⟩
    · rw [hdoc, show buildFlowNodes fsBad 0 0 =
        [mkSynNode fsBad 0 0 (.obj [("id", .str "a")]),
         mkSynNode fsBad 0 0 (.obj [("id", .str "a")])] from rfl]
      exact List.mem_cons_of_mem _ (List.mem_cons_self _ _)
    · rw [show (mkSynNode fsBad 0 0 (.obj [("id", .str "a")])).depends_on =
        ["codex_execution", "flow::a"] from rfl]
      rw [show (mkSynNode fsBad 0 0 (.obj [("id", .str "a")])).id = "flow::a" from rfl]
      decide

/-- C5 amended: the invariants hold for every document whose synthetic nodes
come from `build_flow_nodes` on a flow spec whose emitted node ids are
pairwise distinct and which has no self-edges among them; the primary node
`codex_execution` is present unconditionally. -/
theorem plan_document_invariants (plan_id prompt summary plan_status node_status : String)
    (outputs : List (String × Json)) (usage : Json) (events : List Json)
    (error_payload : Option Json) (t0 t1 dur : Int) (notes : String)
    (ep : Option Json) (fs : Json)
    (hids : (emittedIds fs).Nodup)
    (hself : ∀ i ∈ emittedIds fs, i ∉ depSources fs i) :
    (((buildPlanDocument plan_id prompt summary plan_status node_status outputs
        usage events error_payload t0 t1 dur notes ep
        (some (buildFlowNodes fs t0 t1))).nodes.map (·.id)).Nodup) ∧
    (∀ n ∈ (buildPlanDocument plan_id prompt summary plan_status node_status outputs
        usage events error_payload t0 t1 dur notes ep
        (some (buildFlowNodes fs t0 t1))).nodes, n.id ∉ n.depends_on) ∧
    (∀ synOpt : Option (List PNode),
      ∃ n ∈ (buildPlanDocument plan_id prompt summary plan_status node_status outputs
        usage events error_payload t0 t1 dur notes ep synOpt).nodes,
        n.id = "codex_execution") := by
  obtain ⟨pn, hnodes, hpid, hpdeps⟩ := buildPlanDocument_nodes plan_id prompt summary
    plan_status node_status outputs usage events error_payload t0 t1 dur notes ep
    (some (buildFlowNodes fs t0 t1))
  have hnodes' : (buildPlanDocument plan_id prompt summary plan_status node_status outputs
      usage events error_payload t0 t1 dur notes ep
      (some (buildFlowNodes fs t0 t1))).nodes = pn :: buildFlowNodes fs t0 t1 := hnodes
  refine ⟨?_, ?_, ?_⟩
  · rw [hnodes', List.map_cons, hpid, buildFlowNodes_map_id]
    refine List.nodup_cons.mpr ⟨?_, hids.map flow_prefix_inj⟩
    intro hc
    obtain ⟨r, _, hr⟩ := List.mem_map.mp hc
    exact flow_prefix_ne r hr
  · intro n hn
    rw [hnodes'] at hn
    rcases List.mem_cons.mp hn with rfl | hn2
    · rw [hpdeps]; exact List.not_mem_nil _
    · obtain ⟨r, hrmem, hid, hdeps, _⟩ := mem_buildFlowNodes fs t0 t1 n hn2
      rw [hid, hdeps]
      intro hc
      rcases mem_synDeps fs r _ hc with h | ⟨s, hs, heq⟩
      · exact flow_prefix_ne r h
      · exact hself r hrmem (flow_prefix_inj heq ▸ hs)
  · intro synOpt
    obtain ⟨pn2, hn2, hid2, _⟩ := buildPlanDocument_nodes plan_id prompt summary
      plan_status node_status outputs usage events error_payload t0 t1 dur notes ep synOpt
    exact ⟨pn2, by rw [hn2]; exact List.mem_cons_self _ _, hid2⟩

/-- Witness for the amended C5 at the concrete flow spec `fsGood`. -/
theorem plan_document_invariants_witness :
    (emittedIds fsGood).Nodup ∧
    (∀ i ∈ emittedIds fsGood, i ∉ depSources fsGood i) ∧
    (((buildPlanDocument "plan-1" "p" "s" "completed" "succeeded" [] (.obj []) [] none
        0 0 0 "" none (some (buildFlowNodes fsGood 0 0))).nodes.map (·.id)).Nodup) := by
  have h1 : (emittedIds fsGood).Nodup := by
    rw [show emittedIds fsGood = ["a", "b"] from rfl]; decide
  have h2 : ∀ i ∈ emittedIds fsGood, i ∉ depSources fsGood i := by
    rw [show emittedIds fsGood = ["a", "b"] from rfl]
    intro i hi
    rcases List.mem_cons.mp hi with rfl | hi2
    · rw [show depSources fsGood "a" = [] from rfl]; exact List.not_mem_nil _
    · rcases List.mem_cons.mp hi2 with rfl | hi3
      · rw [show depSources fsGood "b" = ["a"] from rfl]; decide
      · cases hi3
  exact ⟨h1, h2, (plan_document_invariants "plan-1" "p" "s" "completed" "succeeded"
    [] (.obj []) [] none 0 0 0 "" none fsGood h1 h2).1⟩

/-- C10 counterexample: the entry `{"id": "  ", "name": "x"}` has an `id`
that strips to empty and a non-empty `name`, yet `build_flow_nodes` skips it
(the truthy whitespace id shadows the name), so the claimed
"only entries whose id and name are both empty are skipped" fails. -/
theorem name_fallback_counterexample :
    buildFlowNodes fsShadow 0 0 = [] ∧
    entryShadow.isObj = true ∧
    pyStrip (pyStr (getAttr entryShadow "id")) = "" ∧
    pyStrip (pyStr (getAttr entryShadow "name")) = "x" :=
  ⟨rfl, rfl, rfl, rfl⟩

/-- C10 amended: an entry with a falsy `id` and a truthy `name` whose
stringified-stripped value is non-empty is emitted with that value as its
raw id; an entry is skipped exactly when it is not a dict or when the first
truthy value among `id` and `name` (else `""`) stringifies-and-strips to
empty — in particular a truthy whitespace-only `id` shadows a valid
`name`. -/
theorem build_flow_nodes_name_fallback (fs : Json) (t0 t1 : Int) (ns : List Json)
    (h : getAttr fs "nodes" = .arr ns) :
    buildFlowNodes fs t0 t1 =
      (ns.filter (fun e => e.isObj && rawIdOf e ≠ "")).map (mkSynNode fs t0 t1) ∧
    ∀ e ∈ ns, e.isObj = true → pyTruthy (getAttr e "id") = false →
      pyTruthy (getAttr e "name") = true →
      pyStrip (pyStr (getAttr e "name")) ≠ "" →
      rawIdOf e = pyStrip (pyStr (getAttr e "name")) ∧
      mkSynNode fs t0 t1 e ∈ buildFlowNodes fs t0 t1 ∧
      (mkSynNode fs t0 t1 e).id = "flow::" ++ pyStrip (pyStr (getAttr e "name")) := by
  have hb : buildFlowNodes fs t0 t1 =
      (ns.filter (fun e => e.isObj && rawIdOf e ≠ "")).map (mkSynNode fs t0 t1) := by
    unfold buildFlowNodes
    rw [h]
  refine ⟨hb, ?_⟩
  intro e he hobj hid hname hne
  have hraw : rawIdOf e = pyStrip (pyStr (getAttr e "name")) := by
    unfold rawIdOf pyOr
    rw [if_neg (by simp [hid]), if_pos hname]
  refine ⟨hraw, ?_, ?_⟩
  · rw [hb]
    refine List.mem_map_of_mem _ (List.mem_filter.mpr ⟨he, ?_⟩)
    rw [hobj, hraw]
    simpa using hne
  · show "flow::" ++ rawIdOf e = _
    rw [hraw]

/-- Witness for the amended C10: an entry with no `id` at all and
`name = "greet"` is emitted as `flow::greet`. -/
theorem build_flow_nodes_name_fallback_witness :
    getAttr (Json.obj [("nodes", .arr [.obj [("name", .str "greet")]])]) "nodes" =
      .arr [.obj [("name", .str "greet")]] ∧
    (mkSynNode (Json.obj [("nodes", .arr [.obj [("name", .str "greet")]])]) 0 0
        (.obj [("name", .str "greet")])).id = "flow::greet" := by
  refine ⟨rfl, ?_⟩
  have h := (build_flow_nodes_name_fallback
    (Json.obj [("nodes", .arr [.obj [("name", .str "greet")]])]) 0 0
    [.obj [("name", .str "greet")]] rfl).2
    (.obj [("name", .str "greet")]) (List.mem_cons_self _ _) rfl rfl rfl
    (by decide)
  rw [h.2.2]
  rfl

theorem codexGo_all_blank (lines : List SLine)
    (h : lines.all (fun l => pyStrip l.text = "") = true) :
    ∀ evs usage, codexGo lines evs .null usage =
      .err "Codex CLI completed without emitting an agent_message event." := by
  induction lines with
  | nil => intro evs usage; rfl
  | cons l rest ih =>
    intro evs usage
    rw [List.all_cons, Bool.and_eq_true] at h
    rw [codexGo, if_pos (by simpa using h.1)]
    exact ih h.2 evs usage

/-- C8 counterexample: on empty stdout the Copilot adapter (and likewise
Gemini) returns a successful Result whose message is the empty string,
instead of failing with its error kind. -/
theorem empty_stdout_counterexample :
    stdoutOf [] = "" ∧
    copilotRun [] = .ok ⟨.str "", [], .obj []⟩ ∧
    geminiRun [] = .ok ⟨.str "", [], .obj []⟩ :=
  ⟨rfl, rfl, rfl⟩

/-- C8 amended: the Codex and Claude variants fail with their provider error
kind whenever stdout is empty (for Codex: whenever every line is blank), and
Claude never returns a successful Result with an empty message.  Copilot and
Gemini return an empty-message success on empty stdout instead. -/
theorem empty_stdout_failure :
    (∀ lines : List SLine, lines.all (fun l => pyStrip l.text = "") = true →
      codexRun lines = .err "Codex CLI completed without emitting an agent_message event.") ∧
    (∀ (parse : String → Option Json) (stdout : String), pyStrip stdout = "" →
      claudeRun parse stdout = .err "Anthropic CLI produced no output.") ∧
    (∀ (parse : String → Option Json) (stdout : String) (r : ResultJ),
      claudeRun parse stdout = .ok r → ∃ m, r.message = .str m ∧ m ≠ "") := by
  refine ⟨?_, ?_, ?_⟩
  · intro lines h
    exact codexGo_all_blank lines h [] (.obj [])
  · intro parse stdout h
    unfold claudeRun
    rw [if_pos h]
  · intro parse stdout r h
    unfold claudeRun at h
    split at h
    · cases h
    · split at h
      · cases h
      · split at h
        · cases h
        · split at h
          · cases h
          · rename_i hne
            rw [AOut.ok.injEq] at h
            exact ⟨_, congrArg ResultJ.message h.symm, hne⟩

/-- Witness for the amended C8: a blank-line stdout for Codex, a whitespace
stdout for Claude, and a successful Claude run whose message is non-empty. -/
theorem empty_stdout_failure_witness :
    ([(⟨"", none⟩ : SLine)].all (fun l => pyStrip l.text = "") = true) ∧
    codexRun [⟨"", none⟩] =
      .err "Codex CLI completed without emitting an agent_message event." ∧
    pyStrip " " = "" ∧
    claudeRun parseNone " " = .err "Anthropic CLI produced no output." ∧
    ∃ r, claudeRun parseClaude claudeStdout = .ok r ∧
      ∃ m, r.message = .str m ∧ m ≠ "" := by
  refine ⟨rfl, empty_stdout_failure.1 _ rfl, rfl,
    empty_stdout_failure.2.1 parseNone " " rfl, ?_⟩
  refine ⟨⟨.str "hi", [], .obj [("output_tokens", .int 5)]⟩, rfl, ?_⟩
  exact empty_stdout_failure.2.2 parseClaude claudeStdout _ rfl

/-- C9 counterexample: the judge reply `"{}"` parses in the strict tier but
carries no score; `parse_evaluation_payload` returns a payload (not none)
whose score is `None`, so neither tier found a numeric score yet the
evaluation result is present, and the final payload carries `score` and
`justification` keys and no `error` key. -/
theorem evaluation_absent_score_counterexample :
    parseEvaluationPayload parseEmptyObj "\x7b\x7d" =
      .ok (.obj [("score", .null), ("justification", .null)]) ∧
    parsePlaintextEvaluation "\x7b\x7d" = .null ∧
    ∃ p, performSelfEvaluation parseEmptyObj adapterEmptyObj "q" "resp" = .ok p ∧
      objGet p "score" = some .null ∧ objGet p "justification" = some .null ∧
      objGet p "error" = none :=
  ⟨rfl, rfl, ⟨_, rfl, rfl, rfl, rfl⟩⟩

/-- C9 amended: when the strict JSON tier fails to parse the judge reply and
the heuristic tier finds no numeric score, the parsed evaluation is none and
the payload carries an error string (plus raw message/events/usage) and no
score/justification fields. -/
theorem evaluation_absent_score (parse : String → Option Json) (adapter : AdapterM)
    (prompt response : String) (r : ResM)
    (hrun : adapter (evaluationPrompt prompt response) = .ok r)
    (hstrict : parse (fenceAdjust (pyStrip r.message)) = none)
    (hheur : parsePlaintextEvaluation r.message = .null) :
    parseEvaluationPayload parse r.message = .ok .null ∧
    ∃ p, performSelfEvaluation parse adapter prompt response = .ok p ∧
      objGet p "score" = none ∧ objGet p "justification" = none ∧
      objGet p "error" = some (.str "Self-evaluation response was not valid JSON.") ∧
      objGet p "raw_message" = some (.str r.message) := by
  have h1 : parseEvaluationPayload parse r.message = .ok .null := by
    unfold parseEvaluationPayload
    dsimp only
    rw [hstrict, hheur]
  refine ⟨h1, ?_⟩
  unfold performSelfEvaluation
  simp only [hrun, h1]
  exact ⟨_, rfl, rfl, rfl, rfl, rfl⟩

/-- Witness for the amended C9: a plain-prose judge reply. -/
theorem evaluation_absent_score_witness :
    adapterPlain (evaluationPrompt "q" "resp") = .ok ⟨"plain prose reply", [], .obj []⟩ ∧
    parseNone (fenceAdjust (pyStrip "plain prose reply")) = none ∧
    parsePlaintextEvaluation "plain prose reply" = .null ∧
    parseEvaluationPayload parseNone "plain prose reply" = .ok .null :=
  ⟨rfl, rfl, rfl,
    (evaluation_absent_score parseNone adapterPlain "q" "resp"
      ⟨"plain prose reply", [], .obj []⟩ rfl rfl rfl).1⟩

theorem embedMessage_ne_empty (s : String) : embedMessage s ≠ "" := by
  have hd : (embedMessage s).data =
      '`' :: ("``json\n".data ++ s.data ++ "\n```".data) := by
    show ("```json\n" ++ s ++ "\n```").data = _
    rw [String.data_append, String.data_append]
    rfl
  intro h
  rw [h] at hd
  exact List.noConfusion hd

/-- C4 counterexample: in `{"flow_spec": null, "nodes": [1]}` the
`flow_spec` key is present with a null value — not an object — so the claim
requires extraction to return none, but the code treats the null entry as
absent and returns a payload whose `flow_spec` is the whole dict. -/
theorem flow_spec_extract_counterexample :
    objGet loadedNullFS "flow_spec" = some .null ∧
    Json.isObj .null = false ∧
    extractFlowSpecFromMessage parseNullFS msgNullFS =
      some ⟨loadedNullFS, "\x7b\"flow_spec\": null, \"nodes\": [1]\x7d", none⟩ :=
  ⟨rfl, rfl, rfl⟩

/-- C4 amended: extraction never raises (it is a total `Option`-valued
function) and returns none exactly when the fenced-block pattern finds no
candidate, the candidate fails to parse as JSON, the flow-spec value — the
`flow_spec` entry when present and non-null, otherwise the whole parsed
value — is not an object, or that object lacks a non-empty `nodes` list;
otherwise the payload carries that flow-spec value, the candidate text as
`raw_json`, and the stripped non-empty `agentflowlanguage` string if any. -/
theorem flow_spec_extract_characterization (parse : String → Option Json)
    (message : String) :
    (extractFlowSpecFromMessage parse message = none ↔
      (fenceSearch message.data = none ∨
       ∃ grp, fenceSearch message.data = some grp ∧
         (parse (pyStrip (String.mk grp)) = none ∨
          ∃ loaded, parse (pyStrip (String.mk grp)) = some loaded ∧
            ((flowDataOf loaded).isObj = false ∨
             nodesOkOf (flowDataOf loaded) = false)))) ∧
    (∀ payload, extractFlowSpecFromMessage parse message = some payload →
      ∃ grp loaded, fenceSearch message.data = some grp ∧
        parse (pyStrip (String.mk grp)) = some loaded ∧
        payload.flow_spec = flowDataOf loaded ∧
        payload.raw_json = pyStrip (String.mk grp) ∧
        payload.agentflowlanguage = aflPayloadOf loaded) := by
  by_cases hm : message = ""
  · subst hm
    constructor
    · exact iff_of_true rfl (Or.inl rfl)
    · intro payload h
      cases h
  · unfold extractFlowSpecFromMessage
    rw [if_neg hm]
    cases hf : fenceSearch message.data with
    | none =>
      dsimp only
      constructor
      · exact iff_of_true rfl (Or.inl rfl)
      · intro payload h
        cases h
    | some grp =>
      dsimp only
      cases hp : parse (pyStrip (String.mk grp)) with
      | none =>
        dsimp only
        constructor
        · exact iff_of_true rfl (Or.inr ⟨grp, rfl, Or.inl hp⟩)
        · intro payload h
          cases h
      | some loaded =>
        dsimp only
        by_cases hobj : (flowDataOf loaded).isObj = true
        · by_cases hnok : nodesOkOf (flowDataOf loaded) = true
          · constructor
            · refine iff_of_false ?_ ?_
              · rw [if_neg (not_not_intro hobj), if_neg (not_not_intro hnok)]
                exact Option.some_ne_none _
              · rintro (h | ⟨grp2, hg2, h⟩)
                · cases h
                · rw [Option.some.injEq] at hg2
                  subst hg2
                  rcases h with h | ⟨loaded2, hl2, h⟩
                  · rw [hp] at h; cases h
                  · rw [hp, Option.some.injEq] at hl2
                    subst hl2
                    rcases h with h | h
                    · rw [hobj] at h; cases h
                    · rw [hnok] at h; cases h
            · intro payload h
              rw [if_neg (not_not_intro hobj), if_neg (not_not_intro hnok),
                Option.some.injEq] at h
              exact ⟨grp, loaded, rfl, hp, by rw [← h], by rw [← h], by rw [← h]⟩
          · rw [if_neg (not_not_intro hobj), if_pos hnok]
            constructor
            · exact iff_of_true rfl
                (Or.inr ⟨grp, rfl, Or.inr ⟨loaded, hp,
                  Or.inr (by simpa using hnok)⟩⟩)
            · intro payload h
              cases h
        · rw [if_pos hobj]
          constructor
          · exact iff_of_true rfl
              (Or.inr ⟨grp, rfl, Or.inr ⟨loaded, hp,
                Or.inl (by simpa using hobj)⟩⟩)
          · intro payload h
            cases h

/-- Witness for the amended C4: a message without a fenced block extracts to
none. -/
theorem flow_spec_extract_characterization_witness :
    fenceSearch ("no fence here".data) = none ∧
    extractFlowSpecFromMessage parseNone "no fence here" = none :=
  ⟨rfl, (flow_spec_extract_characterization parseNone "no fence here").1.mpr
    (Or.inl rfl)⟩

/-- C7 counterexample: embedding `{"flow_spec": {"nodes": [1]},
"agentflowlanguage": " x"}` in a fenced json block and extracting yields
`agentflowlanguage = "x"`, not `" x"`: extraction strips the string, so the
round trip is not the identity on the `agentflowlanguage` component. -/
theorem roundtrip_counterexample :
    extractFlowSpecFromMessage parseRT (embedMessage rawRT) =
      some ⟨flowF, rawRT, some "x"⟩ ∧
    (some "x" : Option String) ≠ some " x" :=
  ⟨rfl, by decide⟩

/-- C7 amended: extracting from a message embedding a serialization `s` of
`{"flow_spec": F, "agentflowlanguage": A}` in a fenced json block — provided
the fence pattern recovers `s` itself, `s` carries no surrounding
whitespace, `F` is an object with a non-empty `nodes` list — returns a
payload whose `flow_spec` deep-equals `F` and whose `agentflowlanguage` is
`A` stripped of surrounding whitespace, absent when `A` is blank. -/
theorem roundtrip (parse : String → Option Json) (F : Json) (A s : String)
    (hfence : fenceSearch (embedMessage s).data = some s.data)
    (hstrip : pyStrip s = s)
    (hparse : parse s = some (.obj [("flow_spec", F), ("agentflowlanguage", .str A)]))
    (hobj : F.isObj = true)
    (hnodes : nodesOkOf F = true) :
    extractFlowSpecFromMessage parse (embedMessage s) =
      some ⟨F, s, if pyStrip A ≠ "" then some (pyStrip A) else none⟩ := by
  obtain ⟨kvs, rfl⟩ : ∃ kvs, F = .obj kvs := by
    cases F <;> simp_all [Json.isObj]
  unfold extractFlowSpecFromMessage
  rw [if_neg (embedMessage_ne_empty s), hfence]
  dsimp only
  simp only [hstrip, hparse]
  rw [if_neg (not_not_intro (show (flowDataOf (.obj [("flow_spec", .obj kvs),
      ("agentflowlanguage", .str A)])).isObj = true from rfl))]
  rw [if_neg (not_not_intro (show nodesOkOf (flowDataOf (.obj [("flow_spec", .obj kvs),
      ("agentflowlanguage", .str A)])) = true from hnodes))]
  rfl

/-- Witness for the amended C7 at a concrete already-stripped payload. -/
theorem roundtrip_witness :
    fenceSearch (embedMessage rawRTw).data = some rawRTw.data ∧
    pyStrip rawRTw = rawRTw ∧
    parseRTw rawRTw = some (.obj [("flow_spec", flowF), ("agentflowlanguage", .str "x")]) ∧
    extractFlowSpecFromMessage parseRTw (embedMessage rawRTw) =
      some ⟨flowF, rawRTw, some "x"⟩ := by
  refine ⟨rfl, rfl, rfl, ?_⟩
  have h := roundtrip parseRTw flowF "x" rawRTw rfl rfl rfl rfl rfl
  exact h.trans (by rfl)

theorem parsedEvents_nil : parsedEvents [] = [] := rfl

theorem parsedEvents_cons_blank (l : SLine) (rest : List SLine)
    (h : pyStrip l.text = "") : parsedEvents (l :: rest) = parsedEvents rest := by
  simp [parsedEvents, h]

theorem parsedEvents_cons_event (l : SLine) (rest : List SLine) (ev : Json)
    (hb : ¬pyStrip l.text = "") (hl : l.loads = some ev) :
    parsedEvents (l :: rest) = ev :: parsedEvents rest := by
  simp [parsedEvents, hb, hl]

theorem lastWith_cons (p : Json → Bool) (ev : Json) (t : List Json) :
    lastWith p (ev :: t) =
      (lastWith p t).or (if p ev = true then some ev else none) := by
  unfold lastWith
  rw [List.reverse_cons, List.find?_append]
  congr 1
  cases hp : p ev
  · simp [List.find?, hp]
  · simp [List.find?, hp]

theorem lastWith_mem {p : Json → Bool} {l : List Json} {e : Json}
    (h : lastWith p l = some e) : e ∈ l ∧ p e = true := by
  unfold lastWith at h
  exact ⟨List.mem_reverse.mp (List.mem_of_find?_eq_some h), List.find?_some h⟩

theorem updMsg_cons (p : Json → Bool) (ev : Json) (t : List Json) (msg : Json) :
    updMsg p (ev :: t) msg =
      updMsg p t (if p ev = true then eventText ev else msg) := by
  unfold updMsg
  rw [lastWith_cons]
  cases h : lastWith p t with
  | some e => rfl
  | none =>
    cases hp : p ev
    · simp [hp]
    · simp [hp]

theorem updUsage_cons (ev : Json) (t : List Json) (usage : Json) :
    updUsage (ev :: t) usage =
      updUsage t (if isTurnCompleted ev = true
                  then getAttrD ev "usage" (.obj []) else usage) := by
  unfold updUsage
  rw [show lastWith isTurnCompleted (ev :: t) =
    (lastWith isTurnCompleted t).or
      (if isTurnCompleted ev = true then some ev else none) from lastWith_cons _ _ _]
  cases h : lastWith isTurnCompleted t with
  | some e => rfl
  | none =>
    cases hp : isTurnCompleted ev
    · simp [hp]
    · simp [hp]

theorem updUsage_obj_empty (evs : List Json) :
    updUsage evs (.obj []) = lastUsage evs := by
  unfold updUsage lastUsage
  cases lastWith isTurnCompleted evs <;> rfl

theorem goodLine_event {l : SLine} {ev : Json} (hb : ¬pyStrip l.text = "")
    (hl : l.loads = some ev) (hg : goodLine l = true) : goodEvent ev = true := by
  rw [goodLine, hl] at hg
  simpa [hb] using hg

theorem parsedEvents_good (lines : List SLine) (h : wellShaped lines = true) :
    ∀ ev ∈ parsedEvents lines, goodEvent ev = true := by
  induction lines with
  | nil => intro ev hev; cases hev
  | cons l rest ih =>
    rw [wellShaped, List.all_cons, Bool.and_eq_true] at h
    intro ev hev
    by_cases hb : pyStrip l.text = ""
    · rw [parsedEvents_cons_blank l rest hb] at hev
      exact ih h.2 ev hev
    · cases hl : l.loads with
      | none =>
        exfalso
        have hgl := h.1
        rw [goodLine, hl] at hgl
        simp [hb] at hgl
      | some ev2 =>
        rw [parsedEvents_cons_event l rest ev2 hb hl] at hev
        rcases List.mem_cons.mp hev with rfl | hev
        · exact goodLine_event hb hl h.1
        · exact ih h.2 ev hev

theorem goodEvent_isObj {ev : Json} (h : goodEvent ev = true) : ev.isObj = true := by
  rw [goodEvent, Bool.and_eq_true] at h
  exact h.1

theorem goodEvent_no_crash {ev : Json} (h : goodEvent ev = true) :
    (pyTruthy (getAttr ev "item") && !(getAttr ev "item").isObj) = false := by
  rw [goodEvent] at h
  cases hti : pyTruthy (getAttr ev "item") <;>
    cases hio : (getAttr ev "item").isObj <;> simp_all

theorem codexGo_append :
    ∀ (pre : List SLine), wellShaped pre = true →
    ∀ (tail : List SLine) (evs : List Json) (msg usage : Json),
      codexGo (pre ++ tail) evs msg usage =
        codexGo tail (evs ++ parsedEvents pre)
          (updMsg isMsgEventCodex (parsedEvents pre) msg)
          (updUsage (parsedEvents pre) usage) := by
  intro pre
  induction pre with
  | nil =>
    intro _ tail evs msg usage
    simp [parsedEvents_nil, updMsg, updUsage, lastWith]
  | cons l rest ih =>
    intro hws tail evs msg usage
    rw [wellShaped, List.all_cons, Bool.and_eq_true] at hws
    obtain ⟨hgl, hrest⟩ := hws
    rw [List.cons_append]
    by_cases hb : pyStrip l.text = ""
    · rw [show codexGo (l :: (rest ++ tail)) evs msg usage =
          codexGo (rest ++ tail) evs msg usage from by
        simp only [codexGo]; rw [if_pos hb]]
      rw [ih hrest tail evs msg usage, parsedEvents_cons_blank l rest hb]
    · cases hl : l.loads with
      | none =>
        exfalso
        rw [goodLine, hl] at hgl
        simp [hb] at hgl
      | some ev =>
        have hge := goodLine_event hb hl hgl
        have hobj := goodEvent_isObj hge
        have hcr := goodEvent_no_crash hge
        rw [show codexGo (l :: (rest ++ tail)) evs msg usage =
            codexGo (rest ++ tail) (evs ++ [ev])
              (if (pyTruthy (getAttr ev "item") &&
                   jEqStr (getAttr (getAttr ev "item") "type") "agent_message") = true
               then getAttrD (getAttr ev "item") "text" (.str "") else msg)
              (if jEqStr (getAttr ev "type") "turn.completed" = true
               then getAttrD ev "usage" (.obj []) else usage) from by
          simp only [codexGo]
          rw [if_neg hb, hl]
          dsimp only
          rw [if_neg (by simp [hobj]), if_neg (by simp [hcr])]]
        rw [ih hrest tail (evs ++ [ev]) _ _]
        rw [parsedEvents_cons_event l rest ev hb hl, updMsg_cons, updUsage_cons,
          List.append_assoc]
        rfl

/-- Gemini's message predicate, with the accepted types in the source's
order; pointwise equal to `isMsgEventCG`. -/
def isMsgEventGem (ev : Json) : Bool :=
  pyTruthy (getAttr ev "item") &&
    (jEqStr (getAttr (getAttr ev "item") "type") "assistant_message" ||
     jEqStr (getAttr (getAttr ev "item") "type") "agent_message")

theorem isMsgEventGem_eq : isMsgEventGem = isMsgEventCG :=
  funext (fun ev => by rw [isMsgEventGem, isMsgEventCG, Bool.or_comm])

theorem copilotGo_append (stdout : String) :
    ∀ (pre : List SLine), wellShaped pre = true →
    ∀ (tail : List SLine) (evs : List Json) (msg usage : Json),
      copilotGo stdout (pre ++ tail) evs msg usage =
        copilotGo stdout tail (evs ++ parsedEvents pre)
          (updMsg isMsgEventCG (parsedEvents pre) msg)
          (updUsage (parsedEvents pre) usage) := by
  intro pre
  induction pre with
  | nil =>
    intro _ tail evs msg usage
    simp [parsedEvents_nil, updMsg, updUsage, lastWith]
  | cons l rest ih =>
    intro hws tail evs msg usage
    rw [wellShaped, List.all_cons, Bool.and_eq_true] at hws
    obtain ⟨hgl, hrest⟩ := hws
    rw [List.cons_append]
    by_cases hb : pyStrip l.text = ""
    · rw [show copilotGo stdout (l :: (rest ++ tail)) evs msg usage =
          copilotGo stdout (rest ++ tail) evs msg usage from by
        simp only [copilotGo]; rw [if_pos hb]]
      rw [ih hrest tail evs msg usage, parsedEvents_cons_blank l rest hb]
    · cases hl : l.loads with
      | none =>
        exfalso
        rw [goodLine, hl] at hgl
        simp [hb] at hgl
      | some ev =>
        have hge := goodLine_event hb hl hgl
        have hobj := goodEvent_isObj hge
        have hcr := goodEvent_no_crash hge
        rw [show copilotGo stdout (l :: (rest ++ tail)) evs msg usage =
            copilotGo stdout (rest ++ tail) (evs ++ [ev])
              (if (pyTruthy (getAttr ev "item") &&
                   (jEqStr (getAttr (getAttr ev "item") "type") "agent_message" ||
                    jEqStr (getAttr (getAttr ev "item") "type") "assistant_message")) = true
               then getAttrD (getAttr ev "item") "text" (.str "") else msg)
              (if jEqStr (getAttr ev "type") "turn.completed" = true
               then getAttrD ev "usage" (.obj []) else usage) from by
          simp only [copilotGo]
          rw [if_neg hb, hl]
          dsimp only
          rw [if_neg (by simp [hobj]), if_neg (by simp [hcr])]]
        rw [ih hrest tail (evs ++ [ev]) _ _]
        rw [parsedEvents_cons_event l rest ev hb hl, updMsg_cons, updUsage_cons,
          List.append_assoc]
        rfl

theorem geminiGo_append (stdout : String) :
    ∀ (pre : List SLine), wellShaped pre = true →
    ∀ (tail : List SLine) (evs : List Json) (msg usage : Json),
      geminiGo stdout (pre ++ tail) evs msg usage =
        geminiGo stdout tail (evs ++ parsedEvents pre)
          (updMsg isMsgEventGem (parsedEvents pre) msg)
          (updUsage (parsedEvents pre) usage) := by
  intro pre
  induction pre with
  | nil =>
    intro _ tail evs msg usage
    simp [parsedEvents_nil, updMsg, updUsage, lastWith]
  | cons l rest ih =>
    intro hws tail evs msg usage
    rw [wellShaped, List.all_cons, Bool.and_eq_true] at hws
    obtain ⟨hgl, hrest⟩ := hws
    rw [List.cons_append]
    by_cases hb : pyStrip l.text = ""
    · rw [show geminiGo stdout (l :: (rest ++ tail)) evs msg usage =
          geminiGo stdout (rest ++ tail) evs msg usage from by
        simp only [geminiGo]; rw [if_pos hb]]
      rw [ih hrest tail evs msg usage, parsedEvents_cons_blank l rest hb]
    · cases hl : l.loads with
      | none =>
        exfalso
        rw [goodLine, hl] at hgl
        simp [hb] at hgl
      | some ev =>
        have hge := goodLine_event hb hl hgl
        have hobj := goodEvent_isObj hge
        have hcr := goodEvent_no_crash hge
        rw [show geminiGo stdout (l :: (rest ++ tail)) evs msg usage =
            geminiGo stdout (rest ++ tail) (evs ++ [ev])
              (if (pyTruthy (getAttr ev "item") &&
                   (jEqStr (getAttr (getAttr ev "item") "type") "assistant_message" ||
                    jEqStr (getAttr (getAttr ev "item") "type") "agent_message")) = true
               then getAttrD (getAttr ev "item") "text" (.str "") else msg)
              (if jEqStr (getAttr ev "type") "turn.completed" = true
               then getAttrD ev "usage" (.obj []) else usage) from by
          simp only [geminiGo]
          rw [if_neg hb, hl]
          dsimp only
          rw [if_neg (by simp [hobj]), if_neg (by simp [hcr])]]
        rw [ih hrest tail (evs ++ [ev]) _ _]
        rw [parsedEvents_cons_event l rest ev hb hl, updMsg_cons, updUsage_cons,
          List.append_assoc]
        rfl

theorem goodEvent_text_not_null {ev : Json} (hg : goodEvent ev = true)
    (hm : isMsgEventCG ev = true) : (eventText ev).isNull = false := by
  rw [goodEvent] at hg
  rw [isMsgEventCG] at hm
  rw [eventText]
  rw [Bool.and_eq_true] at hg hm
  obtain ⟨_, hrest⟩ := hg
  obtain ⟨hti, hty⟩ := hm
  simp only [hti, Bool.not_true, Bool.false_or, Bool.and_eq_true] at hrest
  obtain ⟨_, h2⟩ := hrest
  simp only [hty, Bool.not_true, Bool.false_or] at h2
  simpa using h2

theorem isMsgEventCodex_le {ev : Json} (h : isMsgEventCodex ev = true) :
    isMsgEventCG ev = true := by
  rw [isMsgEventCodex, Bool.and_eq_true] at h
  rw [isMsgEventCG, Bool.and_eq_true]
  exact ⟨h.1, by simp [h.2]⟩

/-- C2 counterexample: a single-event stream whose only message event has
`item.type = "assistant_message"`.  Every non-blank line parses as JSON and
the last matching event's text is `"hi"`, but the Codex adapter raises its
error kind instead of returning that message: Codex accepts only
`agent_message`, unlike Copilot/Gemini. -/
theorem jsonl_message_counterexample :
    lastWith isMsgEventCG (parsedEvents [lineAsst]) = some evAsst ∧
    eventText evAsst = .str "hi" ∧
    codexRun [lineAsst] =
      .err "Codex CLI completed without emitting an agent_message event." ∧
    copilotRun [lineAsst] = .ok ⟨.str "hi", [evAsst], .obj []⟩ :=
  ⟨rfl, rfl, rfl, rfl⟩

/-- C2 amended: for every fully parseable JSONL stream of well-shaped events
(each parsed line a JSON object whose truthy `item` is an object with
non-null `text` on message events): Copilot and Gemini normalize the message
to the text of the last event with `item.type` in
`agent_message`/`assistant_message` (falling back to the trimmed stdout when
none exists), while Codex uses the last `agent_message` event only and
raises its error kind when there is none; in all cases usage is the `usage`
field of the last `turn.completed` event, or the empty dict. -/
theorem jsonl_normalization (lines : List SLine) (h : wellShaped lines = true) :
    (copilotRun lines =
      .ok ⟨cgMessage lines, parsedEvents lines, lastUsage (parsedEvents lines)⟩) ∧
    (geminiRun lines =
      .ok ⟨cgMessage lines, parsedEvents lines, lastUsage (parsedEvents lines)⟩) ∧
    (∀ ev, lastWith isMsgEventCodex (parsedEvents lines) = some ev →
      codexRun lines =
        .ok ⟨eventText ev, parsedEvents lines, lastUsage (parsedEvents lines)⟩) ∧
    (lastWith isMsgEventCodex (parsedEvents lines) = none →
      codexRun lines =
        .err "Codex CLI completed without emitting an agent_message event.") := by
  have hcop : copilotRun lines =
      copilotGo (stdoutOf lines) [] (parsedEvents lines)
        (updMsg isMsgEventCG (parsedEvents lines) .null)
        (updUsage (parsedEvents lines) (.obj [])) := by
    rw [copilotRun]
    calc copilotGo (stdoutOf lines) lines [] .null (.obj [])
        = copilotGo (stdoutOf lines) (lines ++ []) [] .null (.obj []) := by
          rw [List.append_nil]
      _ = _ := by
          rw [copilotGo_append (stdoutOf lines) lines h [] [] .null (.obj [])]
          rw [List.nil_append]
  have hgem : geminiRun lines =
      geminiGo (stdoutOf lines) [] (parsedEvents lines)
        (updMsg isMsgEventCG (parsedEvents lines) .null)
        (updUsage (parsedEvents lines) (.obj [])) := by
    rw [geminiRun]
    calc geminiGo (stdoutOf lines) lines [] .null (.obj [])
        = geminiGo (stdoutOf lines) (lines ++ []) [] .null (.obj []) := by
          rw [List.append_nil]
      _ = _ := by
          rw [geminiGo_append (stdoutOf lines) lines h [] [] .null (.obj [])]
          rw [List.nil_append, isMsgEventGem_eq]
  have hcod : codexRun lines =
      codexGo [] (parsedEvents lines)
        (updMsg isMsgEventCodex (parsedEvents lines) .null)
        (updUsage (parsedEvents lines) (.obj [])) := by
    rw [codexRun]
    calc codexGo lines [] .null (.obj [])
        = codexGo (lines ++ []) [] .null (.obj []) := by rw [List.append_nil]
      _ = _ := by
          rw [codexGo_append lines h [] [] .null (.obj [])]
          rw [List.nil_append]
  refine ⟨?_, ?_, ?_, ?_⟩
  · rw [hcop]
    cases hlw : lastWith isMsgEventCG (parsedEvents lines) with
    | some e =>
      obtain ⟨hmem, hpred⟩ := lastWith_mem hlw
      have hnn := goodEvent_text_not_null (parsedEvents_good lines h e hmem) hpred
      rw [show updMsg isMsgEventCG (parsedEvents lines) Json.null = eventText e from by
        rw [updMsg, hlw]]
      rw [show cgMessage lines = eventText e from by rw [cgMessage, hlw]]
      simp only [copilotGo]
      rw [if_neg (by simp [hnn]), updUsage_obj_empty]
    | none =>
      rw [show updMsg isMsgEventCG (parsedEvents lines) Json.null = Json.null from by
        rw [updMsg, hlw]]
      rw [show cgMessage lines = .str (pyStrip (stdoutOf lines)) from by
        rw [cgMessage, hlw]]
      simp only [copilotGo]
      rw [if_pos (show Json.null.isNull = true from rfl), updUsage_obj_empty]
  · rw [hgem]
    cases hlw : lastWith isMsgEventCG (parsedEvents lines) with
    | some e =>
      obtain ⟨hmem, hpred⟩ := lastWith_mem hlw
      have hnn := goodEvent_text_not_null (parsedEvents_good lines h e hmem) hpred
      rw [show updMsg isMsgEventCG (parsedEvents lines) Json.null = eventText e from by
        rw [updMsg, hlw]]
      rw [show cgMessage lines = eventText e from by rw [cgMessage, hlw]]
      simp only [geminiGo]
      rw [if_neg (by simp [hnn]), updUsage_obj_empty]
    | none =>
      rw [show updMsg isMsgEventCG (parsedEvents lines) Json.null = Json.null from by
        rw [updMsg, hlw]]
      rw [show cgMessage lines = .str (pyStrip (stdoutOf lines)) from by
        rw [cgMessage, hlw]]
      simp only [geminiGo]
      rw [if_pos (show Json.null.isNull = true from rfl), updUsage_obj_empty]
  · intro ev hlw
    obtain ⟨hmem, hpred⟩ := lastWith_mem hlw
    have hnn := goodEvent_text_not_null (parsedEvents_good lines h ev hmem)
      (isMsgEventCodex_le hpred)
    rw [hcod]
    rw [show updMsg isMsgEventCodex (parsedEvents lines) Json.null = eventText ev from by
      rw [updMsg, hlw]]
    simp only [codexGo]
    rw [if_neg (by simp [hnn]), updUsage_obj_empty]
  · intro hlw
    rw [hcod]
    rw [show updMsg isMsgEventCodex (parsedEvents lines) Json.null = Json.null from by
      rw [updMsg, hlw]]
    simp only [codexGo]
    rw [if_pos (show Json.null.isNull = true from rfl)]

/-- Witness for the amended C2 at a concrete two-event stream. -/
theorem jsonl_normalization_witness :
    wellShaped [lineAgent, lineTurn] = true ∧
    codexRun [lineAgent, lineTurn] =
      .ok ⟨.str "hello", [evAgent, evTurn], .obj [("input_tokens", .int 10)]⟩ ∧
    copilotRun [lineAgent, lineTurn] =
      .ok ⟨.str "hello", [evAgent, evTurn], .obj [("input_tokens", .int 10)]⟩ := by
  refine ⟨rfl, ?_, ?_⟩
  · have h := (jsonl_normalization [lineAgent, lineTurn] rfl).2.2.1 evAgent rfl
    exact h.trans (by rfl)
  · have h := (jsonl_normalization [lineAgent, lineTurn] rfl).1
    exact h.trans (by rfl)

/-- C3 counterexample: the stdout `"5\nnotjson"` has a non-blank line that
does not parse as JSON, but since the earlier line parses to the non-dict
event `5`, all three adapters crash with `AttributeError` at
`event.get("item")` — Codex does not raise its error kind at the bad line,
and Copilot/Gemini do not fall back to the raw stdout. -/
theorem jsonl_bad_line_counterexample :
    pyStrip lineBad.text ≠ "" ∧ lineBad.loads = none ∧
    codexRun [lineFive, lineBad] = .crash "AttributeError" ∧
    copilotRun [lineFive, lineBad] = .crash "AttributeError" ∧
    geminiRun [lineFive, lineBad] = .crash "AttributeError" :=
  ⟨by decide, rfl, rfl, rfl, rfl⟩

/-- C3 amended: when every line before the first unparseable one is blank or
a well-shaped JSON-object event, the Codex adapter raises its error kind at
that first bad line, while Copilot and Gemini succeed with the whole trimmed
stdout as message and an empty events list (previously parsed events
discarded; accumulated usage retained). -/
theorem jsonl_bad_line (pre : List SLine) (bad : SLine) (rest : List SLine)
    (hpre : wellShaped pre = true) (hb1 : ¬pyStrip bad.text = "")
    (hb2 : bad.loads = none) :
    codexRun (pre ++ bad :: rest) = .err "Failed to parse Codex JSON event" ∧
    copilotRun (pre ++ bad :: rest) =
      .ok ⟨.str (pyStrip (stdoutOf (pre ++ bad :: rest))), [],
        lastUsage (parsedEvents pre)⟩ ∧
    geminiRun (pre ++ bad :: rest) =
      .ok ⟨.str (pyStrip (stdoutOf (pre ++ bad :: rest))), [],
        lastUsage (parsedEvents pre)⟩ := by
  refine ⟨?_, ?_, ?_⟩
  · rw [codexRun, codexGo_append pre hpre (bad :: rest) [] .null (.obj [])]
    simp only [codexGo]
    rw [if_neg hb1, hb2]
  · rw [copilotRun, copilotGo_append (stdoutOf (pre ++ bad :: rest)) pre hpre
      (bad :: rest) [] .null (.obj [])]
    simp only [copilotGo]
    rw [if_neg hb1, hb2, updUsage_obj_empty]
  · rw [geminiRun, geminiGo_append (stdoutOf (pre ++ bad :: rest)) pre hpre
      (bad :: rest) [] .null (.obj [])]
    simp only [geminiGo]
    rw [if_neg hb1, hb2, updUsage_obj_empty]

/-- Witness for the amended C3: a good `agent_message` line followed by an
unparseable line. -/
theorem jsonl_bad_line_witness :
    wellShaped [lineAgent] = true ∧
    codexRun [lineAgent, lineBad] = .err "Failed to parse Codex JSON event" ∧
    copilotRun [lineAgent, lineBad] =
      .ok ⟨.str (pyStrip (stdoutOf [lineAgent, lineBad])), [], .obj []⟩ := by
  have h := jsonl_bad_line [lineAgent] lineBad [] rfl (by decide) rfl
  exact ⟨rfl, h.1, h.2.1.trans (by rfl)⟩

/-! ## Pipeline stage lemmas for the orchestration claim -/

theorem mergeField_none {α : Type} (b : Option α) : mergeField b none = b := rfl

theorem mergeField_some {α : Type} (b : Option α) (v : α) :
    mergeField b (some v) = some v := rfl

theorem runFrom_step (parse : String → Option Json) (adapter : AdapterM)
    (clock : Nat → Int) (fuel : Nat) (cur : Stage) (s : PState) (tick : Nat)
    (tr : List Stage) :
    runFrom parse adapter clock (fuel + 1) cur s tick tr =
      match stageRun parse adapter clock cur s tick with
      | .error e => ⟨s, tr ++ [cur], some e⟩
      | .ok (u, tick') =>
        match nextStage (applyUpd s u) cur with
        | none => ⟨applyUpd s u, tr ++ [cur], none⟩
        | some n => runFrom parse adapter clock fuel n (applyUpd s u) tick' (tr ++ [cur]) :=
  rfl

theorem nextStage_invoke_completed (s : PState) (h : s.plan_status = some "completed") :
    nextStage s .invokeModel = some .parseFlowSpec := by
  unfold nextStage postInvokeRoute statusIs
  rw [h]
  rfl

theorem nextStage_invoke_failed (s : PState) (h : s.plan_status = some "failed") :
    nextStage s .invokeModel = some .buildPlan := by
  unfold nextStage postInvokeRoute statusIs
  rw [h]
  rfl

theorem compile_ok (parse : String → Option Json) (adapter : AdapterM) (pseudo : String)
    (hA : ∀ p e, adapter p ≠ .error (.otherExc, e)) :
    ∃ d, compileFlowSpecFromPrompt parse adapter pseudo = .ok d := by
  unfold compileFlowSpecFromPrompt
  cases hc : adapter (flowSpecCompilerPrompt pseudo) with
  | error pe =>
    obtain ⟨k, e⟩ := pe
    cases k
    · exact ⟨_, rfl⟩
    · exact absurd hc (hA _ _)
  | ok c =>
    dsimp only
    cases hx : extractFlowSpecFromMessage parse c.message
    · exact ⟨_, rfl⟩
    · exact ⟨_, rfl⟩

theorem evalParseSafe_ok (parse : String → Option Json) (msg : String)
    (h : evalParseSafe parse msg = true) :
    ∃ j, parseEvaluationPayload parse msg = .ok j := by
  unfold parseEvaluationPayload
  dsimp only
  unfold evalParseSafe at h
  cases hp : parse (fenceAdjust (pyStrip msg)) with
  | none => exact ⟨_, rfl⟩
  | some j =>
    rw [hp] at h
    dsimp only at h ⊢
    rw [if_neg (by simp [h])]
    exact ⟨_, rfl⟩

theorem perform_ok (parse : String → Option Json) (adapter : AdapterM)
    (prompt response : String)
    (hA : ∀ p e, adapter p ≠ .error (.otherExc, e))
    (hE : ∀ p r, adapter p = .ok r → evalParseSafe parse r.message = true) :
    ∃ j, performSelfEvaluation parse adapter prompt response = .ok j := by
  unfold performSelfEvaluation
  cases hc : adapter (evaluationPrompt prompt response) with
  | error pe =>
    obtain ⟨k, e⟩ := pe
    cases k
    · exact ⟨_, rfl⟩
    · exact absurd hc (hA _ _)
  | ok r =>
    dsimp only
    obtain ⟨j, hj⟩ := evalParseSafe_ok parse r.message (hE _ r hc)
    rw [hj]
    dsimp only
    by_cases ht : pyTruthy j = true
    · rw [if_pos ht]
      cases j
      all_goals exact ⟨_, rfl⟩
    · rw [if_neg ht]
      exact ⟨_, rfl⟩

theorem parseFlowSpecStage_ok (parse : String → Option Json) (s : PState) (tick : Nat) :
    ∃ u, parseFlowSpecStage parse s tick = .ok (u, tick) ∧
      u.run_started = none ∧ u.plan_status = none := by
  unfold parseFlowSpecStage
  split
  · exact ⟨_, rfl, rfl, rfl⟩
  · split
    · exact ⟨_, rfl, rfl, rfl⟩
    · dsimp only
      split
      · split
        · exact ⟨_, rfl, rfl, rfl⟩
        · exact ⟨_, rfl, rfl, rfl⟩
      · exact ⟨_, rfl, rfl, rfl⟩

theorem mcWithPayload_fields (d : CompileDetails) (o : List (String × Json)) :
    (mcWithPayload d o).2.run_started = none ∧ (mcWithPayload d o).2.plan_status = none := by
  unfold mcWithPayload
  split
  · dsimp only
    split
    · split
      · exact ⟨rfl, rfl⟩
      · exact ⟨rfl, rfl⟩
    · exact ⟨rfl, rfl⟩
  · exact ⟨rfl, rfl⟩

theorem mcWithAfl_fields (d : CompileDetails) (x : List (String × Json) × PUpd) :
    (mcWithAfl d x).2.run_started = x.2.run_started ∧
      (mcWithAfl d x).2.plan_status = x.2.plan_status := by
  unfold mcWithAfl
  split
  · split
    · exact ⟨rfl, rfl⟩
    · exact ⟨rfl, rfl⟩
  · exact ⟨rfl, rfl⟩

theorem maybeCompileStage_ok (parse : String → Option Json) (adapter : AdapterM)
    (clock : Nat → Int) (s : PState) (tick : Nat)
    (hA : ∀ p e, adapter p ≠ .error (.otherExc, e))
    (t0 : Int) (hrs : s.run_started = some t0) :
    ∃ u tick', maybeCompileStage parse adapter clock s tick = .ok (u, tick') ∧
      u.run_started = none ∧ u.plan_status = none := by
  unfold maybeCompileStage
  split
  · exact ⟨_, _, rfl, rfl, rfl⟩
  · dsimp only
    split
    · exact ⟨_, _, rfl, rfl, rfl⟩
    · obtain ⟨d, hd⟩ := compile_ok parse adapter s.prompt hA
      rw [hd]
      dsimp only
      rw [show timingUpdate clock s tick =
        .ok ((clock tick, clock tick - t0), tick + 1) from by
          unfold timingUpdate; rw [hrs]]
      dsimp only
      refine ⟨_, _, rfl, ?_, ?_⟩
      · exact (mcWithAfl_fields d _).1.trans (mcWithPayload_fields d _).1
      · exact (mcWithAfl_fields d _).2.trans (mcWithPayload_fields d _).2

theorem selfEvaluateStage_ok (parse : String → Option Json) (adapter : AdapterM)
    (clock : Nat → Int) (s : PState) (tick : Nat)
    (hA : ∀ p e, adapter p ≠ .error (.otherExc, e))
    (hE : ∀ p r, adapter p = .ok r → evalParseSafe parse r.message = true)
    (t0 : Int) (hrs : s.run_started = some t0) :
    ∃ u tick', selfEvaluateStage parse adapter clock s tick = .ok (u, tick') ∧
      u.run_started = none ∧ u.plan_status = none := by
  unfold selfEvaluateStage
  split
  · exact ⟨_, _, rfl, rfl, rfl⟩
  · split
    · exact ⟨_, _, rfl, rfl, rfl⟩
    · rename_i r _
      obtain ⟨j, hj⟩ := perform_ok parse adapter s.prompt r.message hA hE
      rw [hj]
      dsimp only
      split
      · exact ⟨_, _, rfl, rfl, rfl⟩
      · rw [show timingUpdate clock s tick =
          .ok ((clock tick, clock tick - t0), tick + 1) from by
            unfold timingUpdate; rw [hrs]]
        exact ⟨_, _, rfl, rfl, rfl⟩

theorem synthesizeNodesStage_ok (s : PState) (tick : Nat)
    (t0 : Int) (hrs : s.run_started = some t0) :
    ∃ u, synthesizeNodesStage s tick = .ok (u, tick) ∧
      u.run_started = none ∧ u.plan_status = none := by
  unfold synthesizeNodesStage
  split
  · exact ⟨_, rfl, rfl, rfl⟩
  · split
    · exact ⟨_, rfl, rfl, rfl⟩
    · rw [hrs]
      exact ⟨_, rfl, rfl, rfl⟩

theorem buildPlanStage_ok (clock : Nat → Int) (s : PState) (tick : Nat)
    (t0 : Int) (hrs : s.run_started = some t0) :
    ∃ u, buildPlanStage clock s tick = .ok (u, tick + 1) := by
  unfold buildPlanStage
  dsimp only
  rw [hrs]
  exact ⟨_, rfl⟩

theorem applyUpd_run_started (s : PState) (u : PUpd) (h : u.run_started = none) :
    (applyUpd s u).run_started = s.run_started := by
  show mergeField s.run_started u.run_started = s.run_started
  rw [h]
  exact mergeField_none _

theorem runFrom_success_tail (parse : String → Option Json) (adapter : AdapterM)
    (clock : Nat → Int) (s : PState) (tick : Nat) (tr : List Stage)
    (hA : ∀ p e, adapter p ≠ .error (.otherExc, e))
    (hE : ∀ p r, adapter p = .ok r → evalParseSafe parse r.message = true)
    (t0 : Int) (hrs : s.run_started = some t0) :
    ∃ st, runFrom parse adapter clock 8 .parseFlowSpec s tick tr =
      ⟨st, tr ++ [.parseFlowSpec] ++ [.maybeCompile] ++ [.selfEvaluate] ++
           [.synthesizeNodes] ++ [.buildPlan], none⟩ := by
  rw [show (8 : Nat) = 7 + 1 from rfl, runFrom_step]
  dsimp only [stageRun]
  obtain ⟨u3, h3, h3r, h3p⟩ := parseFlowSpecStage_ok parse s tick
  rw [h3]
  dsimp only [nextStage]
  rw [show (7 : Nat) = 6 + 1 from rfl, runFrom_step]
  dsimp only [stageRun]
  obtain ⟨u4, t4, h4, h4r, h4p⟩ := maybeCompileStage_ok parse adapter clock
    (applyUpd s u3) tick hA t0 ((applyUpd_run_started s u3 h3r).trans hrs)
  rw [h4]
  dsimp only [nextStage]
  rw [show (6 : Nat) = 5 + 1 from rfl, runFrom_step]
  dsimp only [stageRun]
  obtain ⟨u5, t5, h5, h5r, h5p⟩ := selfEvaluateStage_ok parse adapter clock
    (applyUpd (applyUpd s u3) u4) t4 hA hE t0
    (by rw [applyUpd_run_started _ _ h4r, applyUpd_run_started _ _ h3r]; exact hrs)
  rw [h5]
  dsimp only [nextStage]
  rw [show (5 : Nat) = 4 + 1 from rfl, runFrom_step]
  dsimp only [stageRun]
  obtain ⟨u6, h6, h6r, h6p⟩ := synthesizeNodesStage_ok
    (applyUpd (applyUpd (applyUpd s u3) u4) u5) t5 t0
    (by rw [applyUpd_run_started _ _ h5r, applyUpd_run_started _ _ h4r,
            applyUpd_run_started _ _ h3r]; exact hrs)
  rw [h6]
  dsimp only [nextStage]
  rw [show (4 : Nat) = 3 + 1 from rfl, runFrom_step]
  dsimp only [stageRun]
  obtain ⟨u7, h7⟩ := buildPlanStage_ok clock
    (applyUpd (applyUpd (applyUpd (applyUpd s u3) u4) u5) u6) t5 t0
    (by rw [applyUpd_run_started _ _ h6r, applyUpd_run_started _ _ h5r,
            applyUpd_run_started _ _ h4r, applyUpd_run_started _ _ h3r]; exact hrs)
  rw [h7]
  dsimp only [nextStage]
  exact ⟨_, rfl⟩

/-- C1 counterexample: an adapter that always succeeds with the bare-number
reply "0.85" (a reply the heuristic tier explicitly anticipates) drives the
pipeline into an uncaught AttributeError inside `self_evaluate`:
`json.loads("0.85")` parses to a float, `payload.get("score")` raises, the
exception escapes the graph, and `build_plan` never runs — so `build_plan`
does NOT execute exactly once on every path. -/
theorem pipeline_build_plan_counterexample :
    (runPipeline parseBareFloat adapterBareFloat clock0 "p" "s" "plan-1" false).trace =
      [.initial, .invokeModel, .parseFlowSpec, .maybeCompile, .selfEvaluate] ∧
    (runPipeline parseBareFloat adapterBareFloat clock0 "p" "s" "plan-1" false).crashed =
      some "AttributeError" ∧
    (runPipeline parseBareFloat adapterBareFloat clock0 "p" "s" "plan-1"
      false).trace.count .buildPlan = 0 :=
  ⟨rfl, rfl, rfl⟩

/-- C1 (amended): under the provisos that the adapter never raises an
exception other than `CodexCLIError` and that every successful adapter reply
is safe for the strict evaluation tier (it either fails `json.loads` or
parses to a dict), every pipeline execution finishes without an escaped
exception and runs `build_plan` exactly once; when the first invocation
raises `CodexCLIError` control routes straight from `invoke_model` to
`build_plan`, skipping `parse_flow_spec`, `maybe_compile`, `self_evaluate`
and `synthesize_nodes`, and on a successful invocation all seven stages run
in order. Without the provisos the claim fails
(`pipeline_build_plan_counterexample`). -/
theorem pipeline_build_plan (parse : String → Option Json) (adapter : AdapterM)
    (clock : Nat → Int) (prompt summary plan_id : String) (request_afl : Bool)
    (hA : ∀ p e, adapter p ≠ .error (.otherExc, e))
    (hE : ∀ p r, adapter p = .ok r → evalParseSafe parse r.message = true) :
    (runPipeline parse adapter clock prompt summary plan_id request_afl).crashed = none ∧
    (runPipeline parse adapter clock prompt summary plan_id
      request_afl).trace.count .buildPlan = 1 ∧
    ((∃ e, adapter prompt = .error (.codexCLIError, e)) →
      (runPipeline parse adapter clock prompt summary plan_id request_afl).trace =
        [.initial, .invokeModel, .buildPlan]) ∧
    (∀ r, adapter prompt = .ok r →
      (runPipeline parse adapter clock prompt summary plan_id request_afl).trace =
        [.initial, .invokeModel, .parseFlowSpec, .maybeCompile, .selfEvaluate,
         .synthesizeNodes, .buildPlan]) := by
  cases h : adapter prompt with
  | error pe =>
    obtain ⟨k, e⟩ := pe
    cases k with
    | otherExc => exact absurd h (hA _ _)
    | codexCLIError =>
      have hres : ∃ st,
          runPipeline parse adapter clock prompt summary plan_id request_afl =
            ⟨st, [.initial, .invokeModel, .buildPlan], none⟩ := by
        unfold runPipeline
        rw [show (10 : Nat) = 9 + 1 from rfl, runFrom_step]
        dsimp only [stageRun, initialStage, nextStage, applyUpd, mergeField]
        rw [show (9 : Nat) = 8 + 1 from rfl, runFrom_step]
        dsimp only [stageRun, invokeModelStage, applyUpd, mergeField]
        rw [h]
        dsimp only [timingUpdate, applyUpd, mergeField]
        rw [nextStage_invoke_failed _ rfl]
        dsimp only
        rw [show (8 : Nat) = 7 + 1 from rfl, runFrom_step]
        dsimp only [stageRun]
        exact ⟨_, rfl⟩
      obtain ⟨st, hst⟩ := hres
      rw [hst]
      refine ⟨rfl, rfl, fun _ => rfl, fun r hr => ?_⟩
      exact Except.noConfusion hr
  | ok r =>
    have hres : ∃ st,
        runPipeline parse adapter clock prompt summary plan_id request_afl =
          ⟨st, [.initial, .invokeModel, .parseFlowSpec, .maybeCompile,
                .selfEvaluate, .synthesizeNodes, .buildPlan], none⟩ := by
      unfold runPipeline
      rw [show (10 : Nat) = 9 + 1 from rfl, runFrom_step]
      dsimp only [stageRun, initialStage, nextStage, applyUpd, mergeField]
      rw [show (9 : Nat) = 8 + 1 from rfl, runFrom_step]
      dsimp only [stageRun, invokeModelStage, applyUpd, mergeField]
      rw [h]
      dsimp only [timingUpdate, applyUpd, mergeField]
      rw [nextStage_invoke_completed _ rfl]
      dsimp only
      exact runFrom_success_tail parse adapter clock _ _ _ hA hE (clock 0) rfl
    obtain ⟨st, hst⟩ := hres
    rw [hst]
    refine ⟨rfl, rfl, fun he => ?_, fun r2 hr2 => rfl⟩
    obtain ⟨e, he⟩ := he
    exact Except.noConfusion he

/-- C1 witness: the amended theorem applied to an adapter that raises
`CodexCLIError` on every call — the hypotheses hold and control routes
`invoke_model` → `build_plan` with `build_plan` executing once. -/
theorem pipeline_build_plan_witness :
    (runPipeline parseNone adapterCodexFail clock0 "p" "s" "plan-1" false).crashed = none ∧
    (runPipeline parseNone adapterCodexFail clock0 "p" "s" "plan-1"
      false).trace.count .buildPlan = 1 ∧
    ((∃ e, adapterCodexFail "p" = .error (.codexCLIError, e)) →
      (runPipeline parseNone adapterCodexFail clock0 "p" "s" "plan-1" false).trace =
        [.initial, .invokeModel, .buildPlan]) ∧
    (∀ r, adapterCodexFail "p" = .ok r →
      (runPipeline parseNone adapterCodexFail clock0 "p" "s" "plan-1" false).trace =
        [.initial, .invokeModel, .parseFlowSpec, .maybeCompile, .selfEvaluate,
         .synthesizeNodes, .buildPlan]) :=
  pipeline_build_plan parseNone adapterCodexFail clock0 "p" "s" "plan-1" false
    (fun p e hc => by
      injection hc with h2
      injection h2 with h3 h4
      exact ExcKind.noConfusion h3)
    (fun p r hc => Except.noConfusion hc)

end AgentFlow
